import Mathlib

/-!
Verification of the bridge-status reconciliation engine of the Alpen
dashboards backend (`backend/src/bridge/status.rs`,
`backend/src/bridge/cache.rs`, `backend/src/bridge/types.rs`,
`backend/src/utils/rpc_client.rs`, and the older `backend/src/bridge.rs`),
shallowly embedded in Lean.

Transaction ids (`Txid`) and 32-byte buffers (`Buf32`) are modelled as
abstract natural numbers.  Network effects are modelled as explicit
behaviour functions: an RPC operation on an operator is a function from the
attempt index to an `Except` outcome, and the block explorer is a function
from a transaction id to a response.  Timestamps (`SystemTime::now`) are
passed in explicitly.
-/

/-- Modelled from the spec: the retry policy type `ExponentialBackoff` lives
in `backend/src/retry_policy.rs` / `backend/src/utils/retry_policy.rs`,
which is not among the sources; per the spec the policy is "attempt 0
immediate, then delays increasing by a fixed multiplier (≈1.5×) starting at
~2s, bounded to 3 retries, bounded total wall time ≈10s per operator".
Only the retry bound affects the verified logic; the multiplier and the
delay schedule govern sleep durations, which are not modelled. -/
structure ExponentialBackoff where
  maxRetries : Nat
  totalTime : Nat
  multiplier : Rat
  deriving Repr, DecidableEq

/-- Constructor mirroring `ExponentialBackoff::new(max_retries, total_time, multiplier)`. -/
def ExponentialBackoff.new (maxRetries totalTime : Nat) (multiplier : Rat) :
    ExponentialBackoff :=
  ⟨maxRetries, totalTime, multiplier⟩

/-- Accessor mirroring `ExponentialBackoff::max_retries`. -/
def ExponentialBackoff.max_retries (p : ExponentialBackoff) : Nat := p.maxRetries

/-- Core loop of `execute_with_retries` (`backend/src/utils/rpc_client.rs`):
`op i` is the outcome of the `i`-th invocation of the closure, `attempt` the
current attempt index and `remaining` the number of retries still allowed.
Returns the final result together with the number of invocations performed.
On the last allowed attempt a failure is returned as the last error
(`Err(last_error)` in the source). -/
def executeFrom {E T : Type} (op : Nat → Except E T) (attempt : Nat) :
    Nat → Except E T × Nat
  | 0 => (op attempt, 1)
  | remaining + 1 =>
    match op attempt with
    | .ok r => (.ok r, 1)
    | .error _ =>
      let rest := executeFrom op (attempt + 1) remaining
      (rest.1, rest.2 + 1)

/-- `execute_with_retries` from `backend/src/utils/rpc_client.rs`, with the
hard-coded policy `ExponentialBackoff::new(3, 10, 1.5)`.  The sleeps between
attempts are not modelled.  Returns the result and the number of times the
operation was invoked. -/
def execute_with_retries {E T : Type} (op : Nat → Except E T) : Except E T × Nat :=
  executeFrom op 0 (ExponentialBackoff.new 3 10 (3 / 2 : Rat)).max_retries

/-- `RpcClientManager::query_clients_with_retry`
(`backend/src/bridge/status.rs`): the manager iterates its clients in the
sorted key order of the `BTreeMap`; the list argument is that key sequence.
`behavior k i` is the outcome of the `i`-th invocation of `operation` on the
client of operator `k`.  Returns the first successful result (`none` when
every operator is exhausted) together with the invocation trace: one
`(key, invocation count)` pair for each operator actually tried, in order. -/
def query_clients_with_retry {T : Type} (behavior : String → Nat → Except String T) :
    List String → Option T × List (String × Nat)
  | [] => (none, [])
  | k :: rest =>
    let r := execute_with_retries (behavior k)
    match r.1 with
    | .ok v => (some v, [(k, r.2)])
    | .error _ =>
      let q := query_clients_with_retry behavior rest
      (q.1, (k, r.2) :: q.2)

theorem executeFrom_count_le {E T : Type} (op : Nat → Except E T) (a : Nat) :
    ∀ n, (executeFrom op a n).2 ≤ n + 1 := by
  intro n
  induction n generalizing a with
  | zero => simp [executeFrom]
  | succ m ih =>
    simp only [executeFrom]
    cases op a with
    | ok r => simp
    | error e => simpa using Nat.add_le_add_right (ih (a + 1)) 1

theorem executeFrom_all_fail {E T : Type} (op : Nat → Except E T) :
    ∀ n a, (∀ i, a ≤ i → i ≤ a + n → (op i).isOk = false) →
      executeFrom op a n = (op (a + n), n + 1) := by
  intro n
  induction n with
  | zero => intro a _; simp [executeFrom]
  | succ m ih =>
    intro a h
    have ha : (op a).isOk = false := h a (Nat.le_refl a) (Nat.le_add_right a (m + 1))
    simp only [executeFrom]
    cases hop : op a with
    | ok r => rw [hop] at ha; simp [Except.isOk, Except.toBool] at ha
    | error e =>
      have := ih (a + 1) (fun i h1 h2 => h i (Nat.le_of_succ_le h1) (by omega))
      rw [this]
      have : a + 1 + m = a + (m + 1) := by omega
      rw [this]

theorem execute_with_retries_all_fail {E T : Type} (op : Nat → Except E T)
    (h : ∀ i, i ≤ 3 → (op i).isOk = false) :
    execute_with_retries op = (op 3, 4) := by
  have := executeFrom_all_fail op 3 0 (fun i _ h2 => h i (by omega))
  simpa [execute_with_retries, ExponentialBackoff.new, ExponentialBackoff.max_retries] using this

theorem query_all_fail {T : Type} (behavior : String → Nat → Except String T) :
    ∀ keys : List String,
      (∀ k ∈ keys, ∀ i, i ≤ 3 → ((behavior k) i).isOk = false) →
      query_clients_with_retry behavior keys =
        (none, keys.map (fun k => (k, 4))) := by
  intro keys
  induction keys with
  | nil => intro _; simp [query_clients_with_retry]
  | cons k rest ih =>
    intro h
    have hk := execute_with_retries_all_fail (behavior k)
      (h k (List.mem_cons_self k rest))
    have hlast : ((behavior k) 3).isOk = false :=
      h k (List.mem_cons_self k rest) 3 (Nat.le_refl 3)
    simp only [query_clients_with_retry, hk]
    cases hop : (behavior k) 3 with
    | ok r => rw [hop] at hlast; simp [Except.isOk, Except.toBool] at hlast
    | error e =>
      simp only [List.map_cons]
      rw [ih (fun k' hk' => h k' (List.mem_cons_of_mem k hk'))]

/-- The claim C9: `execute_with_retries` invokes a permanently failing
operation exactly `max_retries + 1 = 4` times and then returns the last
error (the outcome of attempt 3), and it never invokes any operation more
than 4 times. -/
theorem c9_retry_bound :
    (∀ (T : Type) (op : Nat → Except String T), (execute_with_retries op).2 ≤ 4) ∧
    (∀ (T : Type) (op : Nat → Except String T),
      (∀ i, i ≤ 3 → (op i).isOk = false) →
      (execute_with_retries op).2 = 4 ∧ (execute_with_retries op).1 = op 3) := by
  constructor
  · intro T op
    simpa [execute_with_retries, ExponentialBackoff.new, ExponentialBackoff.max_retries]
      using executeFrom_count_le op 0 3
  · intro T op h
    rw [execute_with_retries_all_fail op h]
    exact ⟨rfl, rfl⟩

/-- Witness for C9 at a concrete always-failing operation. -/
theorem c9_retry_bound_witness :
    (execute_with_retries (fun _ => (Except.error "boom" : Except String Nat))).2 = 4 ∧
    (execute_with_retries (fun _ => (Except.error "boom" : Except String Nat))).1 =
      Except.error "boom" :=
  c9_retry_bound.2 Nat (fun _ => Except.error "boom") (by decide)

/-- The claim C1: failover order and exhaustion behaviour of
`query_clients_with_retry`.  First part: with the operator key sequence
`pre ++ k :: post`, if every operator in `pre` fails all of its attempts
and operator `k` succeeds within its retry budget, the call returns `k`'s
result, and the invocation trace consists of exactly the operators of `pre`
(4 invocations each) followed by `k` — no operator of `post` is ever
invoked.  Second part: if every operator fails all of its attempts the call
returns `none` (not an error value). -/
theorem c1_failover_order :
    (∀ (T : Type) (behavior : String → Nat → Except String T)
        (pre post : List String) (k : String),
      (∀ k' ∈ pre, ∀ i, i ≤ 3 → ((behavior k') i).isOk = false) →
      (execute_with_retries (behavior k)).1.isOk = true →
      query_clients_with_retry behavior (pre ++ k :: post) =
        ((execute_with_retries (behavior k)).1.toOption,
          pre.map (fun k' => (k', 4)) ++ [(k, (execute_with_retries (behavior k)).2)])) ∧
    (∀ (T : Type) (behavior : String → Nat → Except String T) (keys : List String),
      (∀ k' ∈ keys, ∀ i, i ≤ 3 → ((behavior k') i).isOk = false) →
      (query_clients_with_retry behavior keys).1 = none) := by
  constructor
  · intro T behavior pre post k
    induction pre with
    | nil =>
      intro _ hk
      simp only [List.nil_append, query_clients_with_retry]
      cases hr : (execute_with_retries (behavior k)).1 with
      | ok v => simp [Except.toOption]
      | error e => rw [hr] at hk; simp [Except.isOk, Except.toBool] at hk
    | cons k0 pre' ih =>
      intro hpre hk
      have h0 := execute_with_retries_all_fail (behavior k0)
        (hpre k0 (List.mem_cons_self k0 pre'))
      have hlast : ((behavior k0) 3).isOk = false :=
        hpre k0 (List.mem_cons_self k0 pre') 3 (Nat.le_refl 3)
      simp only [List.cons_append, query_clients_with_retry, h0]
      cases hop : (behavior k0) 3 with
      | ok r => rw [hop] at hlast; simp [Except.isOk, Except.toBool] at hlast
      | error e =>
        simp only [List.map_cons, List.cons_append, List.append_eq]
        rw [ih (fun k' hk' => hpre k' (List.mem_cons_of_mem k0 hk')) hk]
  · intro T behavior keys h
    rw [query_all_fail behavior keys h]

/-- Witness for C1: operator "a" always fails, "b" succeeds immediately,
"c" is never invoked; and a two-operator pool that always fails yields
`none`. -/
theorem c1_failover_order_witness :
    query_clients_with_retry
        (fun k _ => if k = "b" then Except.ok 7 else (Except.error "down" : Except String Nat))
        (["a"] ++ "b" :: ["c"]) = (some 7, [("a", 4), ("b", 1)]) ∧
    (query_clients_with_retry
        (fun _ _ => (Except.error "down" : Except String Nat)) ["a", "b"]).1 = none := by
  constructor
  · have h := c1_failover_order.1 Nat
      (fun k _ => if k = "b" then Except.ok 7 else (Except.error "down" : Except String Nat))
      ["a"] ["c"] "b" (by decide) (by decide)
    rw [h]; decide
  · exact c1_failover_order.2 Nat
      (fun _ _ => (Except.error "down" : Except String Nat)) ["a", "b"] (by decide)

/-- Transaction ids (`bitcoin::Txid`) are abstract; modelled as naturals. -/
abbrev Txid := Nat

/-- 32-byte buffers (`strata_primitives::buf::Buf32`) are abstract; modelled as naturals. -/
abbrev Buf32 := Nat

/-- `DepositStatus` from `backend/src/bridge/types.rs`. -/
inductive DepositStatus where
  | InProgress
  | Failed
  | Complete
  deriving Repr, DecidableEq

/-- `DepositInfo` from `backend/src/bridge/types.rs`. -/
structure DepositInfo where
  deposit_request_txid : Txid
  deposit_txid : Option Txid
  status : DepositStatus
  deriving Repr, DecidableEq

/-- `WithdrawalStatus` from `backend/src/bridge/types.rs`. -/
inductive WithdrawalStatus where
  | InProgress
  | Complete
  deriving Repr, DecidableEq

/-- `WithdrawalInfo` from `backend/src/bridge/types.rs`. -/
structure WithdrawalInfo where
  withdrawal_request_txid : Buf32
  fulfillment_txid : Option Txid
  status : WithdrawalStatus
  deriving Repr, DecidableEq

/-- `ReimbursementStatus` from `backend/src/bridge/types.rs`. -/
inductive ReimbursementStatus where
  | NotStarted
  | InProgress
  | Challenged
  | Cancelled
  | Complete
  deriving Repr, DecidableEq

/-- `ChallengeStep` from `backend/src/bridge/types.rs`. -/
inductive ChallengeStep where
  | NotApplicable
  | Claim
  | Challenge
  | Assert
  deriving Repr, DecidableEq

/-- `ReimbursementInfo` from `backend/src/bridge/types.rs`. -/
structure ReimbursementInfo where
  claim_txid : Txid
  challenge_step : ChallengeStep
  payout_txid : Option Txid
  status : ReimbursementStatus
  deriving Repr, DecidableEq

/-- `RpcOperatorStatus` from the `strata_bridge_rpc` crate. -/
inductive RpcOperatorStatus where
  | Online
  | Offline
  deriving Repr, DecidableEq

/-- `OperatorStatus` from `backend/src/bridge/types.rs`; the public key is
abstract. -/
structure OperatorStatus where
  operator_id : String
  operator_pk : Nat
  status : RpcOperatorStatus
  deriving Repr, DecidableEq

/-- `RpcDepositStatus` from the `strata_bridge_rpc` crate.  The payload of
`Failed` (a failure reason) is ignored by all the verified code and
omitted. -/
inductive RpcDepositStatus where
  | InProgress
  | Failed
  | Complete (deposit_txid : Txid)
  deriving Repr, DecidableEq

/-- `RpcDepositInfo` from the `strata_bridge_rpc` crate (the fields the
verified code reads). -/
structure RpcDepositInfo where
  deposit_request_txid : Txid
  status : RpcDepositStatus
  deriving Repr, DecidableEq

/-- `RpcWithdrawalStatus` from the `strata_bridge_rpc` crate. -/
inductive RpcWithdrawalStatus where
  | InProgress
  | Complete (fulfillment_txid : Txid)
  deriving Repr, DecidableEq

/-- `RpcWithdrawalInfo` from the `strata_bridge_rpc` crate (the fields the
verified code reads). -/
structure RpcWithdrawalInfo where
  withdrawal_request_txid : Buf32
  status : RpcWithdrawalStatus
  deriving Repr, DecidableEq

/-- `RpcReimbursementStatus` from the `strata_bridge_rpc` crate.  The
`challenge_step` payloads of `InProgress`/`Challenged` are ignored by the
verified conversion (it hard-codes `Claim` resp. `Challenge`) and omitted. -/
inductive RpcReimbursementStatus where
  | NotStarted
  | InProgress
  | Challenged
  | Cancelled
  | Complete (payout_txid : Txid)
  deriving Repr, DecidableEq

/-- `RpcClaimInfo` from the `strata_bridge_rpc` crate (the fields the
verified code reads). -/
structure RpcClaimInfo where
  claim_txid : Txid
  status : RpcReimbursementStatus
  deriving Repr, DecidableEq

/-- `impl From<&RpcDepositInfo> for DepositInfo` (`backend/src/bridge/types.rs`). -/
def DepositInfo.ofRpc (rpc_info : RpcDepositInfo) : DepositInfo :=
  match rpc_info.status with
  | .InProgress =>
    { deposit_request_txid := rpc_info.deposit_request_txid
      deposit_txid := none
      status := .InProgress }
  | .Failed =>
    { deposit_request_txid := rpc_info.deposit_request_txid
      deposit_txid := none
      status := .Failed }
  | .Complete deposit_txid =>
    { deposit_request_txid := rpc_info.deposit_request_txid
      deposit_txid := some deposit_txid
      status := .Complete }

/-- `impl From<&RpcWithdrawalInfo> for WithdrawalInfo` (`backend/src/bridge/types.rs`). -/
def WithdrawalInfo.ofRpc (rpc_info : RpcWithdrawalInfo) : WithdrawalInfo :=
  match rpc_info.status with
  | .InProgress =>
    { withdrawal_request_txid := rpc_info.withdrawal_request_txid
      fulfillment_txid := none
      status := .InProgress }
  | .Complete fulfillment_txid =>
    { withdrawal_request_txid := rpc_info.withdrawal_request_txid
      fulfillment_txid := some fulfillment_txid
      status := .Complete }

/-- `impl From<&RpcClaimInfo> for ReimbursementInfo` (`backend/src/bridge/types.rs`). -/
def ReimbursementInfo.ofRpc (rpc_info : RpcClaimInfo) : ReimbursementInfo :=
  match rpc_info.status with
  | .NotStarted =>
    { claim_txid := rpc_info.claim_txid
      challenge_step := .NotApplicable
      payout_txid := none
      status := .NotStarted }
  | .InProgress =>
    { claim_txid := rpc_info.claim_txid
      challenge_step := .Claim
      payout_txid := none
      status := .InProgress }
  | .Challenged =>
    { claim_txid := rpc_info.claim_txid
      challenge_step := .Challenge
      payout_txid := none
      status := .Challenged }
  | .Cancelled =>
    { claim_txid := rpc_info.claim_txid
      challenge_step := .NotApplicable
      payout_txid := none
      status := .Cancelled }
  | .Complete payout_txid =>
    { claim_txid := rpc_info.claim_txid
      challenge_step := .NotApplicable
      payout_txid := some payout_txid
      status := .Complete }

/-- `TxStatus` from `backend/src/bridge/types.rs`: the decoded body of the
explorer endpoint `GET /tx/:txid/status`. -/
structure TxStatus where
  confirmed : Bool
  block_height : Option Nat
  deriving Repr, DecidableEq

/-- Outcome of one request to the explorer's per-transaction status
endpoint: the HTTP request fails, the body fails to decode as `TxStatus`,
or a decoded status is obtained. -/
inductive EsploraResponse where
  | fetchError
  | parseError
  | ok (status : TxStatus)
  deriving Repr, DecidableEq

/-- `get_tx_confirmations` from `backend/src/bridge/status.rs`, with the
network interaction for the given txid replaced by its `EsploraResponse`.
Returns `chain_tip_height.saturating_sub(h) + 1` when the decoded status is
confirmed and carries a block height, and `none` in every other case
(request failure, undecodable body, unconfirmed transaction, missing
height). -/
def get_tx_confirmations (resp : EsploraResponse) (chain_tip_height : Nat) : Option Nat :=
  match resp with
  | .fetchError => none
  | .parseError => none
  | .ok status =>
    (status.block_height.filter (fun _ => status.confirmed)).map
      (fun h => chain_tip_height - h + 1)

/-- `has_fewer_confirmations_than_max` from `backend/src/bridge.rs`, with
the network interaction replaced by its `EsploraResponse`.  On request or
decode failure it returns `false` early; otherwise it compares the computed
confirmation count (with `0` as the unconfirmed default) against
`max_confirmations`. -/
def has_fewer_confirmations_than_max (resp : EsploraResponse)
    (chain_tip_height max_confirmations : Nat) : Bool :=
  match resp with
  | .fetchError => false
  | .parseError => false
  | .ok status =>
    let confirmations :=
      ((status.block_height.filter (fun _ => status.confirmed)).map
        (fun h => chain_tip_height - h + 1)).getD 0
    decide (confirmations < max_confirmations)

/-- `CacheEntry<T>` from `backend/src/bridge/cache.rs`. -/
structure CacheEntry (T : Type) where
  data : T
  confirmations : Nat
  last_updated : Nat
  deriving Repr, DecidableEq

/-- `CacheEntry::new`, with `SystemTime::now` passed in as `now`. -/
def CacheEntry.new {T : Type} (data : T) (confirmations now : Nat) : CacheEntry T :=
  ⟨data, confirmations, now⟩

/-- `CacheEntry::update`, with `SystemTime::now` passed in as `now`. -/
def CacheEntry.update {T : Type} (_e : CacheEntry T) (data : T) (confirmations now : Nat) :
    CacheEntry T :=
  ⟨data, confirmations, now⟩

/-- One `HashMap` field of `BridgeStatusCache`, modelled as an association
list with unique keys (`HashMap` iteration order is unspecified and none of
the verified properties depend on it). -/
abbrev Table (K V : Type) := List (K × CacheEntry V)

/-- Key lookup in a table (`HashMap::get`). -/
def findEntry {K V : Type} [DecidableEq K] : Table K V → K → Option (CacheEntry V)
  | [], _ => none
  | (k, e) :: rest, key => if k = key then some e else findEntry rest key

/-- The common body of `BridgeStatusCache::update_deposit` /
`update_withdrawal` / `update_reimbursement`: update the existing entry in
place (`get_mut` + `CacheEntry::update`) or insert a fresh one
(`CacheEntry::new`). -/
def updateTable {K V : Type} [DecidableEq K] (t : Table K V) (key : K) (data : V)
    (confirmations now : Nat) : Table K V :=
  match t with
  | [] => [(key, CacheEntry.new data confirmations now)]
  | (k, e) :: rest =>
    if k = key then (k, e.update data confirmations now) :: rest
    else (k, e) :: updateTable rest key data confirmations now

/-- The common body of `apply_deposit_updates` / `apply_withdrawal_updates`
/ `apply_reimbursement_updates`: repeated upsert. -/
def applyUpdates {K V : Type} [DecidableEq K] (t : Table K V)
    (updates : List (K × V × Nat)) (now : Nat) : Table K V :=
  updates.foldl (fun t u => updateTable t u.1 u.2.1 u.2.2 now) t

/-- The common body of `filter_deposits` / `filter_withdrawals` /
`filter_reimbursements`: keep the entries whose data satisfies the
predicate and return `(key, data)` pairs.  The source predicates examine
only `entry.data.status`; here the predicate receives the whole data. -/
def filterTable {K V : Type} (t : Table K V) (p : V → Bool) : List (K × V) :=
  (t.filter (fun kv => p kv.2.data)).map (fun kv => (kv.1, kv.2.data))

/-- `HashMap::remove` for one key (keys are unique, so dropping every pair
with the key coincides with removing the entry). -/
def removeKey {K V : Type} [DecidableEq K] : Table K V → K → Table K V
  | [], _ => []
  | (k, e) :: rest, key =>
    if k = key then removeKey rest key else (k, e) :: removeKey rest key

/-- The common body of `purge_deposits` / `purge_withdrawals` /
`purge_reimbursements`: remove each listed key. -/
def purgeTable {K V : Type} [DecidableEq K] (t : Table K V) (keys : List K) : Table K V :=
  keys.foldl removeKey t

/-- `BridgeStatusCache` from `backend/src/bridge/cache.rs`. -/
structure BridgeStatusCache where
  deposits : Table Txid DepositInfo
  withdrawals : Table Buf32 WithdrawalInfo
  reimbursements : Table Txid ReimbursementInfo
  operators : List OperatorStatus
  deriving DecidableEq

/-- `BridgeStatusCache::default()` / `BridgeStatusCache::new()`: all tables
empty. -/
def BridgeStatusCache.new : BridgeStatusCache := ⟨[], [], [], []⟩

/-- `BridgeStatusCache::update_deposit`. -/
def BridgeStatusCache.update_deposit (c : BridgeStatusCache) (txid : Txid)
    (info : DepositInfo) (confirmations now : Nat) : BridgeStatusCache :=
  { c with deposits := updateTable c.deposits txid info confirmations now }

/-- `BridgeStatusCache::update_withdrawal`. -/
def BridgeStatusCache.update_withdrawal (c : BridgeStatusCache) (request_id : Buf32)
    (info : WithdrawalInfo) (confirmations now : Nat) : BridgeStatusCache :=
  { c with withdrawals := updateTable c.withdrawals request_id info confirmations now }

/-- `BridgeStatusCache::update_reimbursement`. -/
def BridgeStatusCache.update_reimbursement (c : BridgeStatusCache) (txid : Txid)
    (info : ReimbursementInfo) (confirmations now : Nat) : BridgeStatusCache :=
  { c with reimbursements := updateTable c.reimbursements txid info confirmations now }

/-- `BridgeStatusCache::update_operators`. -/
def BridgeStatusCache.update_operators (c : BridgeStatusCache)
    (operators : List OperatorStatus) : BridgeStatusCache :=
  { c with operators := operators }

/-- `BridgeStatusCache::get_operators`. -/
def BridgeStatusCache.get_operators (c : BridgeStatusCache) : List OperatorStatus :=
  c.operators

/-- `BridgeStatusCache::apply_deposit_updates`. -/
def BridgeStatusCache.apply_deposit_updates (c : BridgeStatusCache)
    (updates : List (Txid × DepositInfo × Nat)) (now : Nat) : BridgeStatusCache :=
  { c with deposits := applyUpdates c.deposits updates now }

/-- `BridgeStatusCache::apply_withdrawal_updates`. -/
def BridgeStatusCache.apply_withdrawal_updates (c : BridgeStatusCache)
    (updates : List (Buf32 × WithdrawalInfo × Nat)) (now : Nat) : BridgeStatusCache :=
  { c with withdrawals := applyUpdates c.withdrawals updates now }

/-- `BridgeStatusCache::apply_reimbursement_updates`. -/
def BridgeStatusCache.apply_reimbursement_updates (c : BridgeStatusCache)
    (updates : List (Txid × ReimbursementInfo × Nat)) (now : Nat) : BridgeStatusCache :=
  { c with reimbursements := applyUpdates c.reimbursements updates now }

/-- `BridgeStatusCache::filter_deposits` (predicate on the status, as in the
source). -/
def BridgeStatusCache.filter_deposits (c : BridgeStatusCache)
    (p : DepositStatus → Bool) : List (Txid × DepositInfo) :=
  filterTable c.deposits (fun d => p d.status)

/-- `BridgeStatusCache::filter_withdrawals`. -/
def BridgeStatusCache.filter_withdrawals (c : BridgeStatusCache)
    (p : WithdrawalStatus → Bool) : List (Buf32 × WithdrawalInfo) :=
  filterTable c.withdrawals (fun w => p w.status)

/-- `BridgeStatusCache::filter_reimbursements`. -/
def BridgeStatusCache.filter_reimbursements (c : BridgeStatusCache)
    (p : ReimbursementStatus → Bool) : List (Txid × ReimbursementInfo) :=
  filterTable c.reimbursements (fun r => p r.status)

/-- `BridgeStatusCache::purge_deposits`. -/
def BridgeStatusCache.purge_deposits (c : BridgeStatusCache) (keys : List Txid) :
    BridgeStatusCache :=
  { c with deposits := purgeTable c.deposits keys }

/-- `BridgeStatusCache::purge_withdrawals`. -/
def BridgeStatusCache.purge_withdrawals (c : BridgeStatusCache) (keys : List Buf32) :
    BridgeStatusCache :=
  { c with withdrawals := purgeTable c.withdrawals keys }

/-- `BridgeStatusCache::purge_reimbursements`. -/
def BridgeStatusCache.purge_reimbursements (c : BridgeStatusCache) (keys : List Txid) :
    BridgeStatusCache :=
  { c with reimbursements := purgeTable c.reimbursements keys }

theorem findEntry_updateTable {K V : Type} [DecidableEq K] (t : Table K V) (key : K)
    (data : V) (confirmations now : Nat) (k : K) :
    findEntry (updateTable t key data confirmations now) k =
      if k = key then some ⟨data, confirmations, now⟩ else findEntry t k := by
  induction t with
  | nil =>
    by_cases h : key = k
    · subst h; simp [updateTable, findEntry, CacheEntry.new]
    · have h' : ¬k = key := fun hh => h hh.symm
      simp [updateTable, findEntry, CacheEntry.new, h, h']
  | cons kv rest ih =>
    obtain ⟨k0, e0⟩ := kv
    by_cases h0 : k0 = key
    · subst h0
      by_cases h : k0 = k
      · subst h
        simp [updateTable, findEntry, CacheEntry.update]
      · have h' : ¬k = k0 := fun hh => h hh.symm
        simp [updateTable, findEntry, CacheEntry.update, h, h']
    · by_cases h1 : k0 = k
      · subst h1
        have h2 : ¬k0 = key := h0
        simp [updateTable, findEntry, h2]
      · simp [updateTable, findEntry, h0, h1, ih]

theorem findEntry_applyUpdates_not_mem {K V : Type} [DecidableEq K]
    (updates : List (K × V × Nat)) :
    ∀ (t : Table K V) (now : Nat) (k : K), (∀ u ∈ updates, u.1 ≠ k) →
      findEntry (applyUpdates t updates now) k = findEntry t k := by
  induction updates with
  | nil => intro t now k _; rfl
  | cons u rest ih =>
    intro t now k h
    have hu : u.1 ≠ k := h u (List.mem_cons_self u rest)
    have step : findEntry (updateTable t u.1 u.2.1 u.2.2 now) k = findEntry t k := by
      rw [findEntry_updateTable]
      exact if_neg (fun hk => hu hk.symm)
    calc findEntry (applyUpdates t (u :: rest) now) k
        = findEntry (applyUpdates (updateTable t u.1 u.2.1 u.2.2 now) rest now) k := rfl
      _ = findEntry (updateTable t u.1 u.2.1 u.2.2 now) k :=
          ih _ now k (fun u' hu' => h u' (List.mem_cons_of_mem u hu'))
      _ = findEntry t k := step

theorem findEntry_applyUpdates_cases {K V : Type} [DecidableEq K]
    (updates : List (K × V × Nat)) :
    ∀ (t : Table K V) (now : Nat) (k : K) (e : CacheEntry V),
      findEntry (applyUpdates t updates now) k = some e →
      findEntry t k = some e ∨ ∃ u ∈ updates, u.1 = k ∧ e.data = u.2.1 := by
  induction updates with
  | nil => intro t now k e h; exact Or.inl h
  | cons u rest ih =>
    intro t now k e h
    have h' := ih (updateTable t u.1 u.2.1 u.2.2 now) now k e h
    rcases h' with h' | ⟨u', hu', hk, hd⟩
    · rw [findEntry_updateTable] at h'
      by_cases hk : k = u.1
      · rw [if_pos hk] at h'
        refine Or.inr ⟨u, List.mem_cons_self u rest, hk.symm, ?_⟩
        cases h'; rfl
      · rw [if_neg hk] at h'
        exact Or.inl h'
    · exact Or.inr ⟨u', List.mem_cons_of_mem u hu', hk, hd⟩

theorem findEntry_removeKey {K V : Type} [DecidableEq K] (t : Table K V) (key k : K) :
    findEntry (removeKey t key) k = if k = key then none else findEntry t k := by
  induction t with
  | nil => simp [removeKey, findEntry]
  | cons kv rest ih =>
    obtain ⟨k0, e0⟩ := kv
    simp only [removeKey]
    by_cases h0 : k0 = key
    · simp only [if_pos h0, ih]
      by_cases hk : k = key
      · simp [hk]
      · have h1 : ¬k0 = k := fun h => hk (h.symm.trans h0)
        simp [findEntry, hk, h1]
    · simp only [if_neg h0, findEntry]
      by_cases h1 : k0 = k
      · subst h1
        have hk : ¬k0 = key := h0
        simp [findEntry, hk]
      · simp [findEntry, h1, ih]

theorem findEntry_purgeTable {K V : Type} [DecidableEq K] (keys : List K) :
    ∀ (t : Table K V) (k : K),
      findEntry (purgeTable t keys) k = if k ∈ keys then none else findEntry t k := by
  induction keys with
  | nil => intro t k; simp [purgeTable]
  | cons key rest ih =>
    intro t k
    have : purgeTable t (key :: rest) = purgeTable (removeKey t key) rest := rfl
    rw [this, ih]
    by_cases hm : k ∈ rest
    · simp [hm, List.mem_cons]
    · rw [if_neg hm, findEntry_removeKey]
      by_cases hk : k = key
      · simp [hk]
      · simp [hk, hm]

theorem findEntry_eq_some_of_mem {K V : Type} [DecidableEq K] (t : Table K V)
    (k : K) (e : CacheEntry V) (hnd : (t.map Prod.fst).Nodup) (hm : (k, e) ∈ t) :
    findEntry t k = some e := by
  induction t with
  | nil => cases hm
  | cons kv rest ih =>
    obtain ⟨k0, e0⟩ := kv
    simp only [List.map_cons, List.nodup_cons] at hnd
    rcases List.mem_cons.mp hm with h | h
    · cases h
      simp [findEntry]
    · have hne : ¬k0 = k := by
        intro hk
        subst hk
        exact hnd.1 (List.mem_map.mpr ⟨(k0, e), h, rfl⟩)
      simp only [findEntry, if_neg hne]
      exact ih hnd.2 h

theorem mem_of_findEntry_eq_some {K V : Type} [DecidableEq K] (t : Table K V)
    (k : K) (e : CacheEntry V) (h : findEntry t k = some e) : (k, e) ∈ t := by
  induction t with
  | nil => cases h
  | cons kv rest ih =>
    obtain ⟨k0, e0⟩ := kv
    simp only [findEntry] at h
    by_cases hk : k0 = k
    · rw [if_pos hk] at h
      cases h
      exact hk ▸ List.mem_cons_self _ _
    · rw [if_neg hk] at h
      exact List.mem_cons_of_mem _ (ih h)

theorem mem_filterTable_iff {K V : Type} [DecidableEq K] (t : Table K V)
    (p : V → Bool) (k : K) (d : V) (hnd : (t.map Prod.fst).Nodup) :
    (k, d) ∈ filterTable t p ↔
      (∃ e : CacheEntry V, findEntry t k = some e ∧ e.data = d ∧ p d = true) := by
  constructor
  · intro hm
    simp only [filterTable, List.mem_map, List.mem_filter] at hm
    obtain ⟨⟨k', e⟩, ⟨hmem, hp⟩, heq⟩ := hm
    obtain ⟨hk, hd⟩ := Prod.mk.injEq .. ▸ heq
    subst hk
    refine ⟨e, findEntry_eq_some_of_mem t k' e hnd hmem, hd, ?_⟩
    rw [← hd]; exact hp
  · rintro ⟨e, hf, hd, hp⟩
    have hmem := mem_of_findEntry_eq_some t k e hf
    simp only [filterTable, List.mem_map, List.mem_filter]
    exact ⟨(k, e), ⟨hmem, by rw [hd]; exact hp⟩, by rw [hd]⟩

theorem nodup_keys_updateTable {K V : Type} [DecidableEq K] (t : Table K V)
    (key : K) (data : V) (confirmations now : Nat)
    (hnd : (t.map Prod.fst).Nodup) :
    ((updateTable t key data confirmations now).map Prod.fst).Nodup := by
  induction t with
  | nil => simp [updateTable]
  | cons kv rest ih =>
    obtain ⟨k0, e0⟩ := kv
    simp only [List.map_cons, List.nodup_cons] at hnd
    by_cases h0 : k0 = key
    · simpa [updateTable, h0, List.nodup_cons] using hnd
    · have hkeys : (updateTable rest key data confirmations now).map Prod.fst =
          if key ∈ rest.map Prod.fst then rest.map Prod.fst
          else rest.map Prod.fst ++ [key] := by
        clear hnd ih
        induction rest with
        | nil => simp [updateTable]
        | cons kv' rest' ih' =>
          obtain ⟨k1, e1⟩ := kv'
          by_cases h1 : k1 = key
          · simp [updateTable, h1, List.mem_cons]
          · have h1' : ¬key = k1 := fun h => h1 h.symm
            simp only [updateTable, if_neg h1, List.map_cons, List.mem_cons, h1',
              false_or, ih']
            by_cases hm : key ∈ rest'.map Prod.fst <;> simp [hm]
      simp only [updateTable, if_neg h0, List.map_cons, List.nodup_cons, hkeys]
      by_cases hm : key ∈ rest.map Prod.fst
      · rw [if_pos hm]
        exact ⟨hnd.1, hnd.2⟩
      · rw [if_neg hm]
        refine ⟨?_, ?_⟩
        · intro hc
          rcases List.mem_append.mp hc with hc | hc
          · exact hnd.1 hc
          · have : k0 = key := by simpa using hc
            exact h0 this
        · refine List.Nodup.append hnd.2 (List.nodup_singleton key) ?_
          intro a ha hb
          have : a = key := by simpa using hb
          subst this
          exact hm ha

theorem nodup_keys_applyUpdates {K V : Type} [DecidableEq K]
    (updates : List (K × V × Nat)) :
    ∀ (t : Table K V) (now : Nat), (t.map Prod.fst).Nodup →
      ((applyUpdates t updates now).map Prod.fst).Nodup := by
  induction updates with
  | nil => intro t now h; exact h
  | cons u rest ih =>
    intro t now h
    exact ih _ now (nodup_keys_updateTable t u.1 u.2.1 u.2.2 now h)

/-- The claim C8: upserting the same `(key, data, confirmations)` twice
(at timestamps `t1` then `t2`) yields the same queryable data and
confirmation count, at every key of every table, as upserting it once;
only `last_updated` can differ. -/
theorem c8_upsert_idempotent :
    ∀ (cache : BridgeStatusCache) (conf t1 t2 : Nat),
      (∀ (txid : Txid) (info : DepositInfo) (k : Txid),
        (findEntry ((cache.update_deposit txid info conf t1).update_deposit
            txid info conf t2).deposits k).map (fun e => (e.data, e.confirmations)) =
        (findEntry (cache.update_deposit txid info conf t1).deposits k).map
          (fun e => (e.data, e.confirmations))) ∧
      (∀ (rid : Buf32) (info : WithdrawalInfo) (k : Buf32),
        (findEntry ((cache.update_withdrawal rid info conf t1).update_withdrawal
            rid info conf t2).withdrawals k).map (fun e => (e.data, e.confirmations)) =
        (findEntry (cache.update_withdrawal rid info conf t1).withdrawals k).map
          (fun e => (e.data, e.confirmations))) ∧
      (∀ (txid : Txid) (info : ReimbursementInfo) (k : Txid),
        (findEntry ((cache.update_reimbursement txid info conf t1).update_reimbursement
            txid info conf t2).reimbursements k).map (fun e => (e.data, e.confirmations)) =
        (findEntry (cache.update_reimbursement txid info conf t1).reimbursements k).map
          (fun e => (e.data, e.confirmations))) := by
  intro cache conf t1 t2
  refine ⟨?_, ?_, ?_⟩
  · intro txid info k
    simp only [BridgeStatusCache.update_deposit, findEntry_updateTable]
    by_cases h : k = txid <;> simp [h]
  · intro rid info k
    simp only [BridgeStatusCache.update_withdrawal, findEntry_updateTable]
    by_cases h : k = rid <;> simp [h]
  · intro txid info k
    simp only [BridgeStatusCache.update_reimbursement, findEntry_updateTable]
    by_cases h : k = txid <;> simp [h]

/-- `BridgeMonitoringConfig` (`backend/src/config.rs`): only the
`max_tx_confirmations` accessor is read by the verified logic; the URLs and
the refetch interval do not influence it. -/
structure BridgeMonitoringConfig where
  max_tx_confirmations : Nat
  deriving Repr, DecidableEq

/-- The status filter of `determine_deposits_to_purge`:
`matches!(s, DepositStatus::Complete | DepositStatus::Failed)`. -/
def depositFinal : DepositStatus → Bool
  | .Complete => true
  | .Failed => true
  | .InProgress => false

/-- The status filter of `determine_withdrawals_to_purge`:
`matches!(s, WithdrawalStatus::Complete)`. -/
def withdrawalFinal : WithdrawalStatus → Bool
  | .Complete => true
  | .InProgress => false

/-- The status filter of `determine_reimbursements_to_purge`:
`matches!(s, ReimbursementStatus::Complete | ReimbursementStatus::Cancelled)`. -/
def reimbursementFinal : ReimbursementStatus → Bool
  | .Complete => true
  | .Cancelled => true
  | _ => false

/-- The `check_txid` selection of `determine_deposits_to_purge`: failed
deposits are checked by their request txid, completed ones by their deposit
txid (falling back to the request txid).  The `InProgress` arm is
`unreachable!()` in the source because the status filter admits only
`Complete`/`Failed`; it is mapped to the request txid here. -/
def depositCheckTxid (d : DepositInfo) : Txid :=
  match d.status with
  | .Failed => d.deposit_request_txid
  | .Complete => d.deposit_txid.getD d.deposit_request_txid
  | .InProgress => d.deposit_request_txid

/-- The `check_txid` selection of `determine_reimbursements_to_purge`:
cancelled claims are checked by their claim txid, completed ones by their
payout txid (falling back to the claim txid).  The remaining arms are
`unreachable!()` in the source; they are mapped to the claim txid here. -/
def reimbursementCheckTxid (r : ReimbursementInfo) : Txid :=
  match r.status with
  | .Cancelled => r.claim_txid
  | .Complete => r.payout_txid.getD r.claim_txid
  | _ => r.claim_txid

/-- The loop body shared by the three `determine_*_to_purge` functions:
for each already-filtered `(key, data)` pair, resolve its check txid
(`none` models the withdrawal case of a missing fulfillment txid, where the
source's `if let` silently skips the entry), ask the explorer, and select
the key for purging when a confirmation count was obtained and it is at
least `max_confirmations`. -/
def determineKeysToPurge {K V : Type} (entries : List (K × V)) (check : V → Option Txid)
    (esplora : Txid → EsploraResponse) (chain_tip_height max_confirmations : Nat) :
    List K :=
  entries.filterMap fun kv =>
    match check kv.2 with
    | none => none
    | some tx =>
      match get_tx_confirmations (esplora tx) chain_tip_height with
      | some confirmations =>
        if max_confirmations ≤ confirmations then some kv.1 else none
      | none => none

/-- `determine_deposits_to_purge` from `backend/src/bridge/status.rs`. -/
def determine_deposits_to_purge (cache : BridgeStatusCache)
    (config : BridgeMonitoringConfig) (esplora : Txid → EsploraResponse)
    (chain_tip_height : Nat) : List Txid :=
  determineKeysToPurge (cache.filter_deposits depositFinal)
    (fun d => some (depositCheckTxid d)) esplora chain_tip_height
    config.max_tx_confirmations

/-- `determine_withdrawals_to_purge` from `backend/src/bridge/status.rs`;
the `if let Some(fulfillment_txid)` skip is the `none` case of the check
txid. -/
def determine_withdrawals_to_purge (cache : BridgeStatusCache)
    (config : BridgeMonitoringConfig) (esplora : Txid → EsploraResponse)
    (chain_tip_height : Nat) : List Buf32 :=
  determineKeysToPurge (cache.filter_withdrawals withdrawalFinal)
    (fun w => w.fulfillment_txid) esplora chain_tip_height
    config.max_tx_confirmations

/-- `determine_reimbursements_to_purge` from `backend/src/bridge/status.rs`. -/
def determine_reimbursements_to_purge (cache : BridgeStatusCache)
    (config : BridgeMonitoringConfig) (esplora : Txid → EsploraResponse)
    (chain_tip_height : Nat) : List Txid :=
  determineKeysToPurge (cache.filter_reimbursements reimbursementFinal)
    (fun r => some (reimbursementCheckTxid r)) esplora chain_tip_height
    config.max_tx_confirmations

/-- The recomputed confirmation count of an entry, in the sense of the
spec's confirmation oracle: `0` when there is no settlement txid to check
or when the explorer yields no confirmation value, the explorer's count
otherwise. -/
def recomputedConfirmations (check : Option Txid) (esplora : Txid → EsploraResponse)
    (chain_tip_height : Nat) : Nat :=
  match check with
  | none => 0
  | some tx => (get_tx_confirmations (esplora tx) chain_tip_height).getD 0

theorem mem_determineKeysToPurge_iff {K V : Type} [DecidableEq K] (t : Table K V)
    (p : V → Bool) (check : V → Option Txid) (esplora : Txid → EsploraResponse)
    (tip maxC : Nat) (k : K) (e : CacheEntry V)
    (hnd : (t.map Prod.fst).Nodup) (he : findEntry t k = some e) :
    k ∈ determineKeysToPurge (filterTable t p) check esplora tip maxC ↔
      (p e.data = true ∧ ∃ tx, check e.data = some tx ∧
        ∃ c, get_tx_confirmations (esplora tx) tip = some c ∧ maxC ≤ c) := by
  constructor
  · intro hk
    obtain ⟨⟨k', d⟩, hmem, hf⟩ := List.mem_filterMap.mp hk
    rcases hc : check d with _ | tx
    · rw [hc] at hf; cases hf
    · rw [hc] at hf
      have hf' : (match get_tx_confirmations (esplora tx) tip with
          | some confirmations => if maxC ≤ confirmations then some k' else none
          | none => none) = some k := hf
      rcases hconf : get_tx_confirmations (esplora tx) tip with _ | c
      · rw [hconf] at hf'; cases hf'
      · rw [hconf] at hf'
        have hf2 : (if maxC ≤ c then some k' else none) = some k := hf'
        by_cases hle : maxC ≤ c
        · rw [if_pos hle] at hf2
          cases hf2
          obtain ⟨e', he', hde, hpd⟩ := (mem_filterTable_iff t p k d hnd).mp hmem
          rw [he] at he'
          cases he'
          subst hde
          exact ⟨hpd, tx, hc, c, hconf, hle⟩
        · rw [if_neg hle] at hf2; cases hf2
  · rintro ⟨hp, tx, hc, c, hconf, hle⟩
    refine List.mem_filterMap.mpr ⟨(k, e.data), ?_, ?_⟩
    · exact (mem_filterTable_iff t p k e.data hnd).mpr ⟨e, he, rfl, hp⟩
    · simp only [hc, hconf, if_pos hle]

theorem findEntry_purge_eq_none_iff {K V : Type} [DecidableEq K] (t : Table K V)
    (keys : List K) (k : K) (e : CacheEntry V) (he : findEntry t k = some e) :
    (findEntry (purgeTable t keys) k = none ↔ k ∈ keys) := by
  rw [findEntry_purgeTable]
  by_cases hm : k ∈ keys
  · simp [hm]
  · simp [hm, he]

theorem findEntry_purge_not_mem {K V : Type} [DecidableEq K] (t : Table K V)
    (keys : List K) (k : K) (hm : k ∉ keys) :
    findEntry (purgeTable t keys) k = findEntry t k := by
  rw [findEntry_purgeTable, if_neg hm]

theorem purge_check_iff_recomputed
    (checkTx : Option Txid) (esplora : Txid → EsploraResponse) (tip maxC : Nat)
    (hmax : 0 < maxC) :
    (∃ tx, checkTx = some tx ∧
        ∃ c, get_tx_confirmations (esplora tx) tip = some c ∧ maxC ≤ c) ↔
      maxC ≤ recomputedConfirmations checkTx esplora tip := by
  constructor
  · rintro ⟨tx, htx, c, hconf, hle⟩
    simp [recomputedConfirmations, htx, hconf, hle]
  · intro hle
    rcases htx : checkTx with _ | tx
    · rw [htx] at hle
      simp [recomputedConfirmations] at hle
      omega
    · rw [htx] at hle
      rcases hconf : get_tx_confirmations (esplora tx) tip with _ | c
      · rw [recomputedConfirmations.eq_def] at hle
        simp only [hconf, Option.getD_none] at hle
        omega
      · refine ⟨tx, rfl, c, hconf, ?_⟩
        rw [recomputedConfirmations.eq_def] at hle
        simpa [hconf] using hle

/-- The claim C2: for every cache state and chain-tip snapshot the purge
phase removes a cached entry iff its status is terminal (`Complete`/`Failed`
for deposits, `Complete` for withdrawals, `Complete`/`Cancelled` for
reimbursements) and its recomputed confirmation count reaches
`max_tx_confirmations`; a non-terminal entry is never purged, whatever its
stored confirmation value (the stored count never enters the purge logic).
The iff direction assumes a positive threshold: the recomputed count
defaults to `0` exactly when the explorer yields no value (or, for
withdrawals, when there is no fulfillment txid), in which case the code
retains the entry. -/
theorem c2_eviction_invariant :
    (∀ (cache : BridgeStatusCache) (cfg : BridgeMonitoringConfig)
        (esplora : Txid → EsploraResponse) (tip : Nat) (k : Txid)
        (e : CacheEntry DepositInfo),
      (cache.deposits.map Prod.fst).Nodup →
      findEntry cache.deposits k = some e →
      (0 < cfg.max_tx_confirmations →
        (findEntry (cache.purge_deposits
            (determine_deposits_to_purge cache cfg esplora tip)).deposits k = none ↔
          (depositFinal e.data.status = true ∧
            cfg.max_tx_confirmations ≤
              recomputedConfirmations (some (depositCheckTxid e.data)) esplora tip))) ∧
      (depositFinal e.data.status = false →
        findEntry (cache.purge_deposits
            (determine_deposits_to_purge cache cfg esplora tip)).deposits k = some e)) ∧
    (∀ (cache : BridgeStatusCache) (cfg : BridgeMonitoringConfig)
        (esplora : Txid → EsploraResponse) (tip : Nat) (k : Buf32)
        (e : CacheEntry WithdrawalInfo),
      (cache.withdrawals.map Prod.fst).Nodup →
      findEntry cache.withdrawals k = some e →
      (0 < cfg.max_tx_confirmations →
        (findEntry (cache.purge_withdrawals
            (determine_withdrawals_to_purge cache cfg esplora tip)).withdrawals k = none ↔
          (withdrawalFinal e.data.status = true ∧
            cfg.max_tx_confirmations ≤
              recomputedConfirmations e.data.fulfillment_txid esplora tip))) ∧
      (withdrawalFinal e.data.status = false →
        findEntry (cache.purge_withdrawals
            (determine_withdrawals_to_purge cache cfg esplora tip)).withdrawals k = some e)) ∧
    (∀ (cache : BridgeStatusCache) (cfg : BridgeMonitoringConfig)
        (esplora : Txid → EsploraResponse) (tip : Nat) (k : Txid)
        (e : CacheEntry ReimbursementInfo),
      (cache.reimbursements.map Prod.fst).Nodup →
      findEntry cache.reimbursements k = some e →
      (0 < cfg.max_tx_confirmations →
        (findEntry (cache.purge_reimbursements
            (determine_reimbursements_to_purge cache cfg esplora tip)).reimbursements k = none ↔
          (reimbursementFinal e.data.status = true ∧
            cfg.max_tx_confirmations ≤
              recomputedConfirmations (some (reimbursementCheckTxid e.data)) esplora tip))) ∧
      (reimbursementFinal e.data.status = false →
        findEntry (cache.purge_reimbursements
            (determine_reimbursements_to_purge cache cfg esplora tip)).reimbursements k
          = some e)) := by
  refine ⟨?_, ?_, ?_⟩
  · intro cache cfg esplora tip k e hnd he
    have base := mem_determineKeysToPurge_iff cache.deposits
      (fun d => depositFinal d.status) (fun d => some (depositCheckTxid d))
      esplora tip cfg.max_tx_confirmations k e hnd he
    constructor
    · intro hmax
      have step1 : findEntry (cache.purge_deposits
          (determine_deposits_to_purge cache cfg esplora tip)).deposits k = none ↔
          k ∈ determine_deposits_to_purge cache cfg esplora tip :=
        findEntry_purge_eq_none_iff cache.deposits _ k e he
      exact step1.trans (base.trans (and_congr_right (fun _ =>
        purge_check_iff_recomputed (some (depositCheckTxid e.data)) esplora tip
          cfg.max_tx_confirmations hmax)))
    · intro hfin
      have hnot : k ∉ determine_deposits_to_purge cache cfg esplora tip := by
        intro hk
        have hterm : depositFinal e.data.status = true := (base.mp hk).1
        rw [hfin] at hterm
        cases hterm
      exact (findEntry_purge_not_mem cache.deposits _ k hnot).trans he
  · intro cache cfg esplora tip k e hnd he
    have base := mem_determineKeysToPurge_iff cache.withdrawals
      (fun w => withdrawalFinal w.status) (fun w => w.fulfillment_txid)
      esplora tip cfg.max_tx_confirmations k e hnd he
    constructor
    · intro hmax
      have step1 : findEntry (cache.purge_withdrawals
          (determine_withdrawals_to_purge cache cfg esplora tip)).withdrawals k = none ↔
          k ∈ determine_withdrawals_to_purge cache cfg esplora tip :=
        findEntry_purge_eq_none_iff cache.withdrawals _ k e he
      exact step1.trans (base.trans (and_congr_right (fun _ =>
        purge_check_iff_recomputed e.data.fulfillment_txid esplora tip
          cfg.max_tx_confirmations hmax)))
    · intro hfin
      have hnot : k ∉ determine_withdrawals_to_purge cache cfg esplora tip := by
        intro hk
        have hterm : withdrawalFinal e.data.status = true := (base.mp hk).1
        rw [hfin] at hterm
        cases hterm
      exact (findEntry_purge_not_mem cache.withdrawals _ k hnot).trans he
  · intro cache cfg esplora tip k e hnd he
    have base := mem_determineKeysToPurge_iff cache.reimbursements
      (fun r => reimbursementFinal r.status) (fun r => some (reimbursementCheckTxid r))
      esplora tip cfg.max_tx_confirmations k e hnd he
    constructor
    · intro hmax
      have step1 : findEntry (cache.purge_reimbursements
          (determine_reimbursements_to_purge cache cfg esplora tip)).reimbursements k = none ↔
          k ∈ determine_reimbursements_to_purge cache cfg esplora tip :=
        findEntry_purge_eq_none_iff cache.reimbursements _ k e he
      exact step1.trans (base.trans (and_congr_right (fun _ =>
        purge_check_iff_recomputed (some (reimbursementCheckTxid e.data)) esplora tip
          cfg.max_tx_confirmations hmax)))
    · intro hfin
      have hnot : k ∉ determine_reimbursements_to_purge cache cfg esplora tip := by
        intro hk
        have hterm : reimbursementFinal e.data.status = true := (base.mp hk).1
        rw [hfin] at hterm
        cases hterm
      exact (findEntry_purge_not_mem cache.reimbursements _ k hnot).trans he

/-- Witness for C2: a completed deposit whose deposit txid the explorer
reports at height 95 under tip 100 (6 confirmations, threshold 6) is
purged, and an in-progress deposit is kept under the same conditions. -/
theorem c2_eviction_invariant_witness :
    findEntry ((⟨[(5, ⟨⟨5, some 7, DepositStatus.Complete⟩, 0, 0⟩)], [], [], []⟩ :
          BridgeStatusCache).purge_deposits
        (determine_deposits_to_purge
          ⟨[(5, ⟨⟨5, some 7, DepositStatus.Complete⟩, 0, 0⟩)], [], [], []⟩ ⟨6⟩
          (fun _ => EsploraResponse.ok ⟨true, some 95⟩) 100)).deposits 5 = none ∧
    findEntry ((⟨[(5, ⟨⟨5, none, DepositStatus.InProgress⟩, 0, 0⟩)], [], [], []⟩ :
          BridgeStatusCache).purge_deposits
        (determine_deposits_to_purge
          ⟨[(5, ⟨⟨5, none, DepositStatus.InProgress⟩, 0, 0⟩)], [], [], []⟩ ⟨6⟩
          (fun _ => EsploraResponse.ok ⟨true, some 95⟩) 100)).deposits 5 =
      some ⟨⟨5, none, DepositStatus.InProgress⟩, 0, 0⟩ := by
  constructor
  · exact ((c2_eviction_invariant.1
      ⟨[(5, ⟨⟨5, some 7, DepositStatus.Complete⟩, 0, 0⟩)], [], [], []⟩ ⟨6⟩
      (fun _ => EsploraResponse.ok ⟨true, some 95⟩) 100 5
      ⟨⟨5, some 7, DepositStatus.Complete⟩, 0, 0⟩
      (by decide) (by decide)).1 (by decide)).mpr (by decide)
  · exact (c2_eviction_invariant.1
      ⟨[(5, ⟨⟨5, none, DepositStatus.InProgress⟩, 0, 0⟩)], [], [], []⟩ ⟨6⟩
      (fun _ => EsploraResponse.ok ⟨true, some 95⟩) 100 5
      ⟨⟨5, none, DepositStatus.InProgress⟩, 0, 0⟩
      (by decide) (by decide)).2 (by decide)

/-- The claim C10: a cached withdrawal entry whose status is `Complete` but
whose `fulfillment_txid` is `None` is never selected by
`determine_withdrawals_to_purge` and survives the purge step, for every
explorer behaviour, chain tip and threshold. -/
theorem c10_unfulfilled_complete_withdrawal_never_purged :
    ∀ (cache : BridgeStatusCache) (cfg : BridgeMonitoringConfig)
      (esplora : Txid → EsploraResponse) (tip : Nat) (rid : Buf32)
      (e : CacheEntry WithdrawalInfo),
      (cache.withdrawals.map Prod.fst).Nodup →
      findEntry cache.withdrawals rid = some e →
      e.data.status = WithdrawalStatus.Complete →
      e.data.fulfillment_txid = none →
      rid ∉ determine_withdrawals_to_purge cache cfg esplora tip ∧
      findEntry (cache.purge_withdrawals
          (determine_withdrawals_to_purge cache cfg esplora tip)).withdrawals rid
        = some e := by
  intro cache cfg esplora tip rid e hnd he _hst hfn
  have base := mem_determineKeysToPurge_iff cache.withdrawals
    (fun w => withdrawalFinal w.status) (fun w => w.fulfillment_txid)
    esplora tip cfg.max_tx_confirmations rid e hnd he
  have hnot : rid ∉ determine_withdrawals_to_purge cache cfg esplora tip := by
    intro hk
    obtain ⟨_, tx, htx, _⟩ := base.mp hk
    have htx' : e.data.fulfillment_txid = some tx := htx
    rw [hfn] at htx'
    cases htx'
  exact ⟨hnot, (findEntry_purge_not_mem cache.withdrawals _ rid hnot).trans he⟩

/-- Witness for C10: a `Complete` withdrawal with no fulfillment txid stays
in the cache even though the explorer reports every transaction as deeply
confirmed (999 confirmations against threshold 6). -/
theorem c10_witness :
    3 ∉ determine_withdrawals_to_purge
        ⟨[], [(3, ⟨⟨3, none, WithdrawalStatus.Complete⟩, 500, 0⟩)], [], []⟩ ⟨6⟩
        (fun _ => EsploraResponse.ok ⟨true, some 2⟩) 1000 ∧
    findEntry ((⟨[], [(3, ⟨⟨3, none, WithdrawalStatus.Complete⟩, 500, 0⟩)], [], []⟩ :
          BridgeStatusCache).purge_withdrawals
        (determine_withdrawals_to_purge
          ⟨[], [(3, ⟨⟨3, none, WithdrawalStatus.Complete⟩, 500, 0⟩)], [], []⟩ ⟨6⟩
          (fun _ => EsploraResponse.ok ⟨true, some 2⟩) 1000)).withdrawals 3 =
      some ⟨⟨3, none, WithdrawalStatus.Complete⟩, 500, 0⟩ :=
  c10_unfulfilled_complete_withdrawal_never_purged
    ⟨[], [(3, ⟨⟨3, none, WithdrawalStatus.Complete⟩, 500, 0⟩)], [], []⟩ ⟨6⟩
    (fun _ => EsploraResponse.ok ⟨true, some 2⟩) 1000 3
    ⟨⟨3, none, WithdrawalStatus.Complete⟩, 500, 0⟩
    (by decide) (by decide) (by decide) (by decide)

/-- Counterexample to C3 as stated: the claim says the confirmation lookup
returns `0` whenever the explorer HTTP request fails or the response cannot
be parsed.  In fact `get_tx_confirmations` returns no value at all
(`none`), and in `has_fewer_confirmations_than_max` a failed request
returns `false` (entry treated as NOT having fewer confirmations than the
maximum) while an actual count of `0` would return `true` — shown here by
contrasting a fetch failure with a successfully parsed unconfirmed
response. -/
theorem c3_confirmation_lookup_counterexample :
    get_tx_confirmations EsploraResponse.fetchError 100 ≠ some 0 ∧
    get_tx_confirmations EsploraResponse.fetchError 100 = none ∧
    get_tx_confirmations EsploraResponse.parseError 100 = none ∧
    has_fewer_confirmations_than_max EsploraResponse.fetchError 100 6 = false ∧
    has_fewer_confirmations_than_max (EsploraResponse.ok ⟨false, none⟩) 100 6 = true := by
  decide

/-- The claim C3 as amended: when the explorer reports the transaction as
confirmed with a block height `h`, the lookup returns
`chain_tip.saturating_sub(h) + 1`; in every other case
`get_tx_confirmations` returns no value (`none`, not `0`), and
`has_fewer_confirmations_than_max` treats a successfully parsed
unconfirmed response as `0` confirmations (keeping the entry) but treats
an HTTP or parse failure as `false` (excluding the entry). -/
theorem c3_confirmation_lookup :
    (∀ h tip : Nat,
      get_tx_confirmations (EsploraResponse.ok ⟨true, some h⟩) tip = some (tip - h + 1)) ∧
    (∀ (resp : EsploraResponse) (tip : Nat),
      (∀ h : Nat, resp ≠ EsploraResponse.ok ⟨true, some h⟩) →
      get_tx_confirmations resp tip = none) ∧
    (∀ tip maxC : Nat, 0 < maxC →
      has_fewer_confirmations_than_max (EsploraResponse.ok ⟨false, none⟩) tip maxC = true ∧
      has_fewer_confirmations_than_max EsploraResponse.fetchError tip maxC = false ∧
      has_fewer_confirmations_than_max EsploraResponse.parseError tip maxC = false) := by
  refine ⟨fun h tip => rfl, ?_, ?_⟩
  · intro resp tip hne
    rcases resp with _ | _ | s
    · rfl
    · rfl
    · obtain ⟨c, bh⟩ := s
      cases c
      · cases bh <;> rfl
      · rcases bh with _ | h
        · rfl
        · exact absurd rfl (hne h)
  · intro tip maxC hm
    refine ⟨?_, rfl, rfl⟩
    simp [has_fewer_confirmations_than_max, hm]

/-- Witness for the amended C3 at concrete inputs. -/
theorem c3_confirmation_lookup_witness :
    get_tx_confirmations (EsploraResponse.ok ⟨true, some 95⟩) 100 = some 6 ∧
    get_tx_confirmations EsploraResponse.parseError 100 = none ∧
    has_fewer_confirmations_than_max EsploraResponse.fetchError 100 6 = false := by
  refine ⟨c3_confirmation_lookup.1 95 100, ?_, ?_⟩
  · exact c3_confirmation_lookup.2.1 EsploraResponse.parseError 100
      (fun h hc => EsploraResponse.noConfusion hc)
  · exact (c3_confirmation_lookup.2.2 100 6 (by decide)).2.1

/-- One reconciliation cycle's external inputs: the per-operator liveness
results, the chain-tip fetch outcome (`none` = the esplora request failed),
the explorer's per-txid responses, the id lists returned by the "list"
queries (already defaulted to `[]` when every operator failed, as
`unwrap_or_else` does in the source), and the per-identity detail fetch
outcomes (`none` = every operator exhausted, or `Ok(None)` for
withdrawal/claim detail, which the source also treats as a failure).
`now` is the cycle's `SystemTime::now` timestamp. -/
structure CycleEnv where
  operator_statuses : List OperatorStatus
  chain_tip : Option Nat
  esplora : Txid → EsploraResponse
  new_deposit_txids : List Txid
  deposit_detail : Txid → Option RpcDepositInfo
  new_withdrawal_ids : List Buf32
  withdrawal_detail : Buf32 → Option RpcWithdrawalInfo
  new_claim_txids : List Txid
  claim_detail : Txid → Option RpcClaimInfo
  now : Nat

/-- The request-merging loop at the top of `get_deposits` /
`get_withdrawals` / `get_reimbursements`: start from the newly listed ids
and push each active id not already present. -/
def mergeRequests {K : Type} [DecidableEq K] (newIds active : List K) : List K :=
  active.foldl (fun acc t => if t ∈ acc then acc else acc ++ [t]) newIds

/-- `get_deposits` from `backend/src/bridge/status.rs`: for each merged
request txid, fetch the detail (skipping the id on failure), keep
in-progress deposits with confirmation `0`, and keep failed/completed
deposits only when the explorer yields a confirmation count strictly below
`max_tx_confirmations` (checking the request txid for failed deposits and
the deposit txid for completed ones). -/
def get_deposits (config : BridgeMonitoringConfig) (env : CycleEnv)
    (chain_tip_height : Nat) (active_deposit_txids : List Txid) :
    List (DepositInfo × Nat) :=
  (mergeRequests env.new_deposit_txids active_deposit_txids).filterMap fun txid =>
    match env.deposit_detail txid with
    | none => none
    | some dep_info =>
      match dep_info.status with
      | .InProgress => some (DepositInfo.ofRpc dep_info, 0)
      | .Failed =>
        match get_tx_confirmations (env.esplora dep_info.deposit_request_txid)
            chain_tip_height with
        | some confirmations =>
          if confirmations < config.max_tx_confirmations then
            some (DepositInfo.ofRpc dep_info, confirmations)
          else none
        | none => none
      | .Complete deposit_txid =>
        match get_tx_confirmations (env.esplora deposit_txid) chain_tip_height with
        | some confirmations =>
          if confirmations < config.max_tx_confirmations then
            some (DepositInfo.ofRpc dep_info, confirmations)
          else none
        | none => none

/-- `get_withdrawals` from `backend/src/bridge/status.rs`. -/
def get_withdrawals (config : BridgeMonitoringConfig) (env : CycleEnv)
    (chain_tip_height : Nat) (active_withdrawal_request_ids : List Buf32) :
    List (WithdrawalInfo × Nat) :=
  (mergeRequests env.new_withdrawal_ids active_withdrawal_request_ids).filterMap
    fun request_id =>
      match env.withdrawal_detail request_id with
      | none => none
      | some wd_info =>
        match wd_info.status with
        | .InProgress => some (WithdrawalInfo.ofRpc wd_info, 0)
        | .Complete fulfillment_txid =>
          match get_tx_confirmations (env.esplora fulfillment_txid) chain_tip_height with
          | some confirmations =>
            if confirmations < config.max_tx_confirmations then
              some (WithdrawalInfo.ofRpc wd_info, confirmations)
            else none
          | none => none

/-- `get_reimbursements` from `backend/src/bridge/status.rs`: `NotStarted`
claims are skipped, in-progress/challenged claims are kept with
confirmation `0`, and cancelled/completed claims are kept only below the
confirmation threshold (checking the claim txid for cancelled claims and
the payout txid for completed ones). -/
def get_reimbursements (config : BridgeMonitoringConfig) (env : CycleEnv)
    (chain_tip_height : Nat) (active_reimbursement_txids : List Txid) :
    List (ReimbursementInfo × Nat) :=
  (mergeRequests env.new_claim_txids active_reimbursement_txids).filterMap
    fun claim_txid =>
      match env.claim_detail claim_txid with
      | none => none
      | some claim_info =>
        match claim_info.status with
        | .NotStarted => none
        | .InProgress => some (ReimbursementInfo.ofRpc claim_info, 0)
        | .Challenged => some (ReimbursementInfo.ofRpc claim_info, 0)
        | .Cancelled =>
          match get_tx_confirmations (env.esplora claim_info.claim_txid)
              chain_tip_height with
          | some confirmations =>
            if confirmations < config.max_tx_confirmations then
              some (ReimbursementInfo.ofRpc claim_info, confirmations)
            else none
          | none => none
        | .Complete payout_txid =>
          match get_tx_confirmations (env.esplora payout_txid) chain_tip_height with
          | some confirmations =>
            if confirmations < config.max_tx_confirmations then
              some (ReimbursementInfo.ofRpc claim_info, confirmations)
            else none
          | none => none

/-- The "active" filter for deposits in `bridge_monitoring_task`:
`matches!(s, DepositStatus::InProgress)`. -/
def depositActive : DepositStatus → Bool
  | .InProgress => true
  | _ => false

/-- The "active" filter for withdrawals in `bridge_monitoring_task`. -/
def withdrawalActive : WithdrawalStatus → Bool
  | .InProgress => true
  | _ => false

/-- The "active" filter for reimbursements in `bridge_monitoring_task`:
`matches!(s, InProgress | Challenged)`. -/
def reimbursementActive : ReimbursementStatus → Bool
  | .InProgress => true
  | .Challenged => true
  | _ => false

/-- `BridgeMonitoringContext` (`backend/src/bridge/types.rs`): the shared
cache plus the readiness flag (`status_available`).  The `Notify` primitive
itself has no state beyond the broadcast event, which `run_cycle` reports
explicitly. -/
structure BridgeMonitoringContext where
  status_cache : BridgeStatusCache
  status_available : Bool
  deriving DecidableEq

/-- `BridgeMonitoringContext::new`: empty cache, readiness flag `false`. -/
def BridgeMonitoringContext.new : BridgeMonitoringContext :=
  ⟨BridgeStatusCache.new, false⟩

/-- The observable outcome of one iteration of the `loop` in
`bridge_monitoring_task`: the context afterwards, whether
`notify_waiters()` was called, and whether `interval.tick().await` at the
bottom of the loop body was reached (the `continue` on chain-tip failure
jumps back to the top of the loop, skipping it). -/
structure CycleResult where
  ctx : BridgeMonitoringContext
  notified : Bool
  ticked : Bool
  deriving DecidableEq

/-- One iteration of the `loop` of `bridge_monitoring_task`
(`backend/src/bridge/status.rs`): update the operator table; fetch the
chain tip, and on failure `continue` (skipping every remaining phase and
the tick); otherwise read the active id lists, then for each entity type
apply the fetched update batch and purge; finally flip the readiness flag
and notify waiters if this was the first completed cycle, and await the
next tick. -/
def run_cycle (config : BridgeMonitoringConfig) (env : CycleEnv)
    (context : BridgeMonitoringContext) : CycleResult :=
  let cache0 := context.status_cache.update_operators env.operator_statuses
  match env.chain_tip with
  | none =>
    { ctx := ⟨cache0, context.status_available⟩, notified := false, ticked := false }
  | some chain_tip_height =>
    let active_deposits := (cache0.filter_deposits depositActive).map Prod.fst
    let active_withdrawals := (cache0.filter_withdrawals withdrawalActive).map Prod.fst
    let active_reimbursements :=
      (cache0.filter_reimbursements reimbursementActive).map Prod.fst
    let deposit_updates := (get_deposits config env chain_tip_height active_deposits).map
      (fun p => (p.1.deposit_request_txid, p.1, p.2))
    let cache1 := cache0.apply_deposit_updates deposit_updates env.now
    let cache2 := cache1.purge_deposits
      (determine_deposits_to_purge cache1 config env.esplora chain_tip_height)
    let withdrawal_updates :=
      (get_withdrawals config env chain_tip_height active_withdrawals).map
        (fun p => (p.1.withdrawal_request_txid, p.1, p.2))
    let cache3 := cache2.apply_withdrawal_updates withdrawal_updates env.now
    let cache4 := cache3.purge_withdrawals
      (determine_withdrawals_to_purge cache3 config env.esplora chain_tip_height)
    let reimbursement_updates :=
      (get_reimbursements config env chain_tip_height active_reimbursements).map
        (fun p => (p.1.claim_txid, p.1, p.2))
    let cache5 := cache4.apply_reimbursement_updates reimbursement_updates env.now
    let cache6 := cache5.purge_reimbursements
      (determine_reimbursements_to_purge cache5 config env.esplora chain_tip_height)
    { ctx := ⟨cache6, true⟩, notified := !context.status_available, ticked := true }

/-- Iterated cycles of the monitoring loop. -/
def run_cycles (config : BridgeMonitoringConfig) (envs : List CycleEnv)
    (context : BridgeMonitoringContext) : BridgeMonitoringContext :=
  envs.foldl (fun c env => (run_cycle config env c).ctx) context

/-- `BridgeStatus` from `backend/src/bridge/types.rs`. -/
structure BridgeStatus where
  operators : List OperatorStatus
  deposits : List DepositInfo
  withdrawals : List WithdrawalInfo
  reimbursements : List ReimbursementInfo
  deriving DecidableEq

/-- `get_bridge_status` from `backend/src/bridge/status.rs`: the boolean
records whether the caller must first block on the readiness broadcast
(`status_available` not yet set); the snapshot is the cache dump through
the always-true filters. -/
def get_bridge_status (context : BridgeMonitoringContext) : Bool × BridgeStatus :=
  (!context.status_available,
    { operators := context.status_cache.get_operators
      deposits := (context.status_cache.filter_deposits fun _ => true).map Prod.snd
      withdrawals := (context.status_cache.filter_withdrawals fun _ => true).map Prod.snd
      reimbursements :=
        (context.status_cache.filter_reimbursements fun _ => true).map Prod.snd })

theorem run_cycle_none (config : BridgeMonitoringConfig) (env : CycleEnv)
    (context : BridgeMonitoringContext) (h : env.chain_tip = none) :
    run_cycle config env context =
      ⟨⟨context.status_cache.update_operators env.operator_statuses,
        context.status_available⟩, false, false⟩ := by
  simp only [run_cycle, h]

theorem run_cycle_flag_eq (config : BridgeMonitoringConfig) (env : CycleEnv)
    (context : BridgeMonitoringContext) :
    (run_cycle config env context).ctx.status_available =
      (context.status_available || env.chain_tip.isSome) := by
  rcases h : env.chain_tip with _ | tip
  · simp [run_cycle, h]
  · simp [run_cycle, h]

theorem run_cycle_notified_eq (config : BridgeMonitoringConfig) (env : CycleEnv)
    (context : BridgeMonitoringContext) :
    (run_cycle config env context).notified =
      (env.chain_tip.isSome && !context.status_available) := by
  rcases h : env.chain_tip with _ | tip
  · simp [run_cycle, h]
  · simp [run_cycle, h]

theorem run_cycles_flag_eq (config : BridgeMonitoringConfig) :
    ∀ (envs : List CycleEnv) (context : BridgeMonitoringContext),
      (run_cycles config envs context).status_available =
        (context.status_available || envs.any (fun env => env.chain_tip.isSome)) := by
  intro envs
  induction envs with
  | nil => intro c; simp [run_cycles]
  | cons e rest ih =>
    intro c
    have hstep : run_cycles config (e :: rest) c =
        run_cycles config rest (run_cycle config e c).ctx := rfl
    rw [hstep, ih, run_cycle_flag_eq]
    simp [Bool.or_assoc]

/-- The claim C4: the readiness flag starts `false`; one cycle leaves it at
`old || completed` (so it is never reset and a completed cycle sets it);
the waiter broadcast fires exactly when a completed cycle finds the flag
still `false` (the first completed cycle); starting from a fresh context
the flag is `true` iff some cycle so far completed; and a reader blocks on
the gate iff it observes the flag `false`, returning the cache snapshot
directly otherwise. -/
theorem c4_readiness_write_once :
    (BridgeMonitoringContext.new.status_available = false) ∧
    (∀ (config : BridgeMonitoringConfig) (env : CycleEnv)
        (context : BridgeMonitoringContext),
      (run_cycle config env context).ctx.status_available =
        (context.status_available || env.chain_tip.isSome)) ∧
    (∀ (config : BridgeMonitoringConfig) (env : CycleEnv)
        (context : BridgeMonitoringContext),
      context.status_available = true →
      (run_cycle config env context).ctx.status_available = true) ∧
    (∀ (config : BridgeMonitoringConfig) (env : CycleEnv)
        (context : BridgeMonitoringContext),
      (run_cycle config env context).notified =
        (env.chain_tip.isSome && !context.status_available)) ∧
    (∀ (config : BridgeMonitoringConfig) (envs : List CycleEnv),
      (run_cycles config envs BridgeMonitoringContext.new).status_available =
        envs.any (fun env => env.chain_tip.isSome)) ∧
    (∀ context : BridgeMonitoringContext, context.status_available = true →
      (get_bridge_status context).1 = false) ∧
    (∀ context : BridgeMonitoringContext, context.status_available = false →
      (get_bridge_status context).1 = true) := by
  refine ⟨rfl, run_cycle_flag_eq, ?_, run_cycle_notified_eq, ?_, ?_, ?_⟩
  · intro config env context h
    rw [run_cycle_flag_eq, h, Bool.true_or]
  · intro config envs
    rw [run_cycles_flag_eq]
    rfl
  · intro context h
    simp [get_bridge_status, h]
  · intro context h
    simp [get_bridge_status, h]

/-- A cycle environment whose chain-tip fetch succeeds but every other
upstream query fails or is empty. -/
def sampleEnvOk : CycleEnv :=
  { operator_statuses := []
    chain_tip := some 100
    esplora := fun _ => EsploraResponse.fetchError
    new_deposit_txids := []
    deposit_detail := fun _ => none
    new_withdrawal_ids := []
    withdrawal_detail := fun _ => none
    new_claim_txids := []
    claim_detail := fun _ => none
    now := 17 }

/-- A cycle environment whose chain-tip fetch fails. -/
def sampleEnvFail : CycleEnv :=
  { sampleEnvOk with chain_tip := none }

/-- Witness for C4 at concrete inputs: a fresh context is not ready; a
failed cycle then a completed cycle set the flag; a completed cycle on an
already-ready context keeps it and does not notify again; readers block
iff the flag is unset. -/
theorem c4_readiness_write_once_witness :
    BridgeMonitoringContext.new.status_available = false ∧
    (run_cycles ⟨6⟩ [sampleEnvFail, sampleEnvOk]
      BridgeMonitoringContext.new).status_available = true ∧
    (run_cycle ⟨6⟩ sampleEnvOk ⟨BridgeStatusCache.new, true⟩).ctx.status_available
      = true ∧
    (run_cycle ⟨6⟩ sampleEnvOk ⟨BridgeStatusCache.new, true⟩).notified = false ∧
    (run_cycle ⟨6⟩ sampleEnvOk BridgeMonitoringContext.new).notified = true ∧
    (get_bridge_status ⟨BridgeStatusCache.new, true⟩).1 = false ∧
    (get_bridge_status BridgeMonitoringContext.new).1 = true := by
  refine ⟨c4_readiness_write_once.1, ?_, ?_, ?_, ?_, ?_, ?_⟩
  · rw [c4_readiness_write_once.2.2.2.2.1 ⟨6⟩ [sampleEnvFail, sampleEnvOk]]
    decide
  · exact c4_readiness_write_once.2.2.1 ⟨6⟩ sampleEnvOk ⟨BridgeStatusCache.new, true⟩ rfl
  · rw [c4_readiness_write_once.2.2.2.1 ⟨6⟩ sampleEnvOk ⟨BridgeStatusCache.new, true⟩]
    decide
  · rw [c4_readiness_write_once.2.2.2.1 ⟨6⟩ sampleEnvOk BridgeMonitoringContext.new]
    decide
  · exact c4_readiness_write_once.2.2.2.2.2.1 ⟨BridgeStatusCache.new, true⟩ rfl
  · exact c4_readiness_write_once.2.2.2.2.2.2 BridgeMonitoringContext.new rfl

/-- The claim C5, first half (which holds): when the chain-tip fetch fails,
the cycle leaves the deposit, withdrawal and reimbursement tables and the
readiness flag untouched and fires no broadcast — only the operator table
(updated before the chain-tip phase) changes.  Final conjunct (refuting the
claim's second half): the `continue` jumps back to the top of the loop
WITHOUT reaching `interval.tick().await` at the bottom of the loop body, so
the retry is immediate rather than waiting for the next timer tick. -/
theorem c5_chain_tip_failure_skips_cycle :
    ∀ (config : BridgeMonitoringConfig) (env : CycleEnv)
      (context : BridgeMonitoringContext),
      env.chain_tip = none →
      (run_cycle config env context).ctx.status_cache.deposits =
          context.status_cache.deposits ∧
      (run_cycle config env context).ctx.status_cache.withdrawals =
          context.status_cache.withdrawals ∧
      (run_cycle config env context).ctx.status_cache.reimbursements =
          context.status_cache.reimbursements ∧
      (run_cycle config env context).ctx.status_available =
          context.status_available ∧
      (run_cycle config env context).notified = false ∧
      (run_cycle config env context).ticked = false := by
  intro config env context h
  rw [run_cycle_none config env context h]
  exact ⟨rfl, rfl, rfl, rfl, rfl, rfl⟩

/-- Witness for C5 on a concrete populated cache and a failed chain-tip
fetch. -/
theorem c5_chain_tip_failure_skips_cycle_witness :
    (run_cycle ⟨6⟩ sampleEnvFail
        ⟨⟨[(5, ⟨⟨5, none, DepositStatus.InProgress⟩, 0, 3⟩)], [], [], []⟩, false⟩
      ).ctx.status_cache.deposits =
        [(5, ⟨⟨5, none, DepositStatus.InProgress⟩, 0, 3⟩)] ∧
    (run_cycle ⟨6⟩ sampleEnvFail
        ⟨⟨[(5, ⟨⟨5, none, DepositStatus.InProgress⟩, 0, 3⟩)], [], [], []⟩, false⟩
      ).notified = false ∧
    (run_cycle ⟨6⟩ sampleEnvFail
        ⟨⟨[(5, ⟨⟨5, none, DepositStatus.InProgress⟩, 0, 3⟩)], [], [], []⟩, false⟩
      ).ticked = false := by
  have h := c5_chain_tip_failure_skips_cycle ⟨6⟩ sampleEnvFail
    ⟨⟨[(5, ⟨⟨5, none, DepositStatus.InProgress⟩, 0, 3⟩)], [], [], []⟩, false⟩ rfl
  exact ⟨h.1, h.2.2.2.2.1, h.2.2.2.2.2⟩

theorem DepositInfo.ofRpc_deposit_request (i : RpcDepositInfo) :
    (DepositInfo.ofRpc i).deposit_request_txid = i.deposit_request_txid := by
  rcases i with ⟨req, st⟩
  cases st <;> rfl

theorem WithdrawalInfo.ofRpc_withdrawal_request (i : RpcWithdrawalInfo) :
    (WithdrawalInfo.ofRpc i).withdrawal_request_txid = i.withdrawal_request_txid := by
  rcases i with ⟨req, st⟩
  cases st <;> rfl

theorem ReimbursementInfo.ofRpc_claim (i : RpcClaimInfo) :
    (ReimbursementInfo.ofRpc i).claim_txid = i.claim_txid := by
  rcases i with ⟨c, st⟩
  cases st <;> rfl

theorem get_deposits_shape (config : BridgeMonitoringConfig) (env : CycleEnv)
    (tip : Nat) (active : List Txid) :
    ∀ p ∈ get_deposits config env tip active,
      ∃ t info, env.deposit_detail t = some info ∧ p.1 = DepositInfo.ofRpc info := by
  intro p hp
  obtain ⟨t, _hmem, hf⟩ := List.mem_filterMap.mp hp
  rcases hd : env.deposit_detail t with _ | info
  · rw [hd] at hf; cases hf
  · rw [hd] at hf
    refine ⟨t, info, hd, ?_⟩
    have hf1 : (match info.status with
        | RpcDepositStatus.InProgress => some (DepositInfo.ofRpc info, 0)
        | RpcDepositStatus.Failed =>
          match get_tx_confirmations (env.esplora info.deposit_request_txid) tip with
          | some confirmations =>
            if confirmations < config.max_tx_confirmations then
              some (DepositInfo.ofRpc info, confirmations)
            else none
          | none => none
        | RpcDepositStatus.Complete deposit_txid =>
          match get_tx_confirmations (env.esplora deposit_txid) tip with
          | some confirmations =>
            if confirmations < config.max_tx_confirmations then
              some (DepositInfo.ofRpc info, confirmations)
            else none
          | none => none) = some p := hf
    rcases hs : info.status with _ | _ | dtx <;> rw [hs] at hf1
    · have hf2 : some (DepositInfo.ofRpc info, 0) = some p := hf1
      cases hf2; rfl
    · rcases hc : get_tx_confirmations (env.esplora info.deposit_request_txid) tip
        with _ | c
      · rw [hc] at hf1; cases hf1
      · rw [hc] at hf1
        have hf2 : (if c < config.max_tx_confirmations then
            some (DepositInfo.ofRpc info, c) else none) = some p := hf1
        by_cases hlt : c < config.max_tx_confirmations
        · rw [if_pos hlt] at hf2; cases hf2; rfl
        · rw [if_neg hlt] at hf2; cases hf2
    · have hfm : (match get_tx_confirmations (env.esplora dtx) tip with
          | some confirmations =>
            if confirmations < config.max_tx_confirmations then
              some (DepositInfo.ofRpc info, confirmations)
            else none
          | none => none) = some p := hf1
      rcases hc : get_tx_confirmations (env.esplora dtx) tip with _ | c
      · rw [hc] at hfm; cases hfm
      · rw [hc] at hfm
        have hf2 : (if c < config.max_tx_confirmations then
            some (DepositInfo.ofRpc info, c) else none) = some p := hfm
        by_cases hlt : c < config.max_tx_confirmations
        · rw [if_pos hlt] at hf2; cases hf2; rfl
        · rw [if_neg hlt] at hf2; cases hf2

theorem get_withdrawals_shape (config : BridgeMonitoringConfig) (env : CycleEnv)
    (tip : Nat) (active : List Buf32) :
    ∀ p ∈ get_withdrawals config env tip active,
      ∃ t info, env.withdrawal_detail t = some info ∧ p.1 = WithdrawalInfo.ofRpc info := by
  intro p hp
  obtain ⟨t, _hmem, hf⟩ := List.mem_filterMap.mp hp
  rcases hd : env.withdrawal_detail t with _ | info
  · rw [hd] at hf; cases hf
  · rw [hd] at hf
    refine ⟨t, info, hd, ?_⟩
    have hf1 : (match info.status with
        | RpcWithdrawalStatus.InProgress => some (WithdrawalInfo.ofRpc info, 0)
        | RpcWithdrawalStatus.Complete fulfillment_txid =>
          match get_tx_confirmations (env.esplora fulfillment_txid) tip with
          | some confirmations =>
            if confirmations < config.max_tx_confirmations then
              some (WithdrawalInfo.ofRpc info, confirmations)
            else none
          | none => none) = some p := hf
    rcases hs : info.status with _ | ftx <;> rw [hs] at hf1
    · have hf2 : some (WithdrawalInfo.ofRpc info, 0) = some p := hf1
      cases hf2; rfl
    · have hfm : (match get_tx_confirmations (env.esplora ftx) tip with
          | some confirmations =>
            if confirmations < config.max_tx_confirmations then
              some (WithdrawalInfo.ofRpc info, confirmations)
            else none
          | none => none) = some p := hf1
      rcases hc : get_tx_confirmations (env.esplora ftx) tip with _ | c
      · rw [hc] at hfm; cases hfm
      · rw [hc] at hfm
        have hf2 : (if c < config.max_tx_confirmations then
            some (WithdrawalInfo.ofRpc info, c) else none) = some p := hfm
        by_cases hlt : c < config.max_tx_confirmations
        · rw [if_pos hlt] at hf2; cases hf2; rfl
        · rw [if_neg hlt] at hf2; cases hf2

theorem get_reimbursements_shape (config : BridgeMonitoringConfig) (env : CycleEnv)
    (tip : Nat) (active : List Txid) :
    ∀ p ∈ get_reimbursements config env tip active,
      ∃ t info, env.claim_detail t = some info ∧ p.1 = ReimbursementInfo.ofRpc info ∧
        info.status ≠ RpcReimbursementStatus.NotStarted := by
  intro p hp
  obtain ⟨t, _hmem, hf⟩ := List.mem_filterMap.mp hp
  rcases hd : env.claim_detail t with _ | info
  · rw [hd] at hf; cases hf
  · rw [hd] at hf
    have hf1 : (match info.status with
        | RpcReimbursementStatus.NotStarted => none
        | RpcReimbursementStatus.InProgress => some (ReimbursementInfo.ofRpc info, 0)
        | RpcReimbursementStatus.Challenged => some (ReimbursementInfo.ofRpc info, 0)
        | RpcReimbursementStatus.Cancelled =>
          match get_tx_confirmations (env.esplora info.claim_txid) tip with
          | some confirmations =>
            if confirmations < config.max_tx_confirmations then
              some (ReimbursementInfo.ofRpc info, confirmations)
            else none
          | none => none
        | RpcReimbursementStatus.Complete payout_txid =>
          match get_tx_confirmations (env.esplora payout_txid) tip with
          | some confirmations =>
            if confirmations < config.max_tx_confirmations then
              some (ReimbursementInfo.ofRpc info, confirmations)
            else none
          | none => none) = some p := hf
    refine ⟨t, info, hd, ?_⟩
    rcases hs : info.status with _ | _ | _ | _ | ptx <;> rw [hs] at hf1
    · cases hf1
    · have hf2 : some (ReimbursementInfo.ofRpc info, 0) = some p := hf1
      cases hf2; exact ⟨rfl, by intro h; cases h⟩
    · have hf2 : some (ReimbursementInfo.ofRpc info, 0) = some p := hf1
      cases hf2; exact ⟨rfl, by intro h; cases h⟩
    · rcases hc : get_tx_confirmations (env.esplora info.claim_txid) tip with _ | c
      · rw [hc] at hf1; cases hf1
      · rw [hc] at hf1
        have hf2 : (if c < config.max_tx_confirmations then
            some (ReimbursementInfo.ofRpc info, c) else none) = some p := hf1
        by_cases hlt : c < config.max_tx_confirmations
        · rw [if_pos hlt] at hf2; cases hf2
          exact ⟨rfl, by intro h; cases h⟩
        · rw [if_neg hlt] at hf2; cases hf2
    · have hfm : (match get_tx_confirmations (env.esplora ptx) tip with
          | some confirmations =>
            if confirmations < config.max_tx_confirmations then
              some (ReimbursementInfo.ofRpc info, confirmations)
            else none
          | none => none) = some p := hf1
      rcases hc : get_tx_confirmations (env.esplora ptx) tip with _ | c
      · rw [hc] at hfm; cases hfm
      · rw [hc] at hfm
        have hf2 : (if c < config.max_tx_confirmations then
            some (ReimbursementInfo.ofRpc info, c) else none) = some p := hfm
        by_cases hlt : c < config.max_tx_confirmations
        · rw [if_pos hlt] at hf2; cases hf2
          exact ⟨rfl, by intro h; cases h⟩
        · rw [if_neg hlt] at hf2; cases hf2

theorem deposits_batch_keys_fetched (config : BridgeMonitoringConfig) (env : CycleEnv)
    (tip : Nat) (active : List Txid) (tid : Txid)
    (hwf : ∀ t i, env.deposit_detail t = some i → i.deposit_request_txid = t)
    (hfail : env.deposit_detail tid = none) :
    ∀ u ∈ (get_deposits config env tip active).map
        (fun p => (p.1.deposit_request_txid, p.1, p.2)), u.1 ≠ tid := by
  intro u hu
  obtain ⟨p, hp, hup⟩ := List.mem_map.mp hu
  obtain ⟨t, info, hdet, hp1⟩ := get_deposits_shape config env tip active p hp
  subst hup
  intro hcontra
  have h1 : p.1.deposit_request_txid = tid := hcontra
  rw [hp1, DepositInfo.ofRpc_deposit_request, hwf t info hdet] at h1
  rw [h1] at hdet
  rw [hfail] at hdet
  cases hdet

theorem withdrawals_batch_keys_fetched (config : BridgeMonitoringConfig)
    (env : CycleEnv) (tip : Nat) (active : List Buf32) (rid : Buf32)
    (hwf : ∀ t i, env.withdrawal_detail t = some i → i.withdrawal_request_txid = t)
    (hfail : env.withdrawal_detail rid = none) :
    ∀ u ∈ (get_withdrawals config env tip active).map
        (fun p => (p.1.withdrawal_request_txid, p.1, p.2)), u.1 ≠ rid := by
  intro u hu
  obtain ⟨p, hp, hup⟩ := List.mem_map.mp hu
  obtain ⟨t, info, hdet, hp1⟩ := get_withdrawals_shape config env tip active p hp
  subst hup
  intro hcontra
  have h1 : p.1.withdrawal_request_txid = rid := hcontra
  rw [hp1, WithdrawalInfo.ofRpc_withdrawal_request, hwf t info hdet] at h1
  rw [h1] at hdet
  rw [hfail] at hdet
  cases hdet

theorem reimbursements_batch_keys_fetched (config : BridgeMonitoringConfig)
    (env : CycleEnv) (tip : Nat) (active : List Txid) (tid : Txid)
    (hwf : ∀ t i, env.claim_detail t = some i → i.claim_txid = t)
    (hfail : env.claim_detail tid = none) :
    ∀ u ∈ (get_reimbursements config env tip active).map
        (fun p => (p.1.claim_txid, p.1, p.2)), u.1 ≠ tid := by
  intro u hu
  obtain ⟨p, hp, hup⟩ := List.mem_map.mp hu
  obtain ⟨t, info, hdet, hp1, _⟩ := get_reimbursements_shape config env tip active p hp
  subst hup
  intro hcontra
  have h1 : p.1.claim_txid = tid := hcontra
  rw [hp1, ReimbursementInfo.ofRpc_claim, hwf t info hdet] at h1
  rw [h1] at hdet
  rw [hfail] at hdet
  cases hdet

theorem not_mem_determine_deposits (cache : BridgeStatusCache)
    (config : BridgeMonitoringConfig) (esplora : Txid → EsploraResponse) (tip : Nat)
    (k : Txid) (e : CacheEntry DepositInfo)
    (hnd : (cache.deposits.map Prod.fst).Nodup)
    (he : findEntry cache.deposits k = some e)
    (hfin : depositFinal e.data.status = false) :
    k ∉ determine_deposits_to_purge cache config esplora tip := by
  intro hk
  have base := mem_determineKeysToPurge_iff cache.deposits
    (fun d => depositFinal d.status) (fun d => some (depositCheckTxid d))
    esplora tip config.max_tx_confirmations k e hnd he
  have hterm : depositFinal e.data.status = true := (base.mp hk).1
  rw [hfin] at hterm
  cases hterm

theorem not_mem_determine_withdrawals (cache : BridgeStatusCache)
    (config : BridgeMonitoringConfig) (esplora : Txid → EsploraResponse) (tip : Nat)
    (k : Buf32) (e : CacheEntry WithdrawalInfo)
    (hnd : (cache.withdrawals.map Prod.fst).Nodup)
    (he : findEntry cache.withdrawals k = some e)
    (hfin : withdrawalFinal e.data.status = false) :
    k ∉ determine_withdrawals_to_purge cache config esplora tip := by
  intro hk
  have base := mem_determineKeysToPurge_iff cache.withdrawals
    (fun w => withdrawalFinal w.status) (fun w => w.fulfillment_txid)
    esplora tip config.max_tx_confirmations k e hnd he
  have hterm : withdrawalFinal e.data.status = true := (base.mp hk).1
  rw [hfin] at hterm
  cases hterm

theorem not_mem_determine_reimbursements (cache : BridgeStatusCache)
    (config : BridgeMonitoringConfig) (esplora : Txid → EsploraResponse) (tip : Nat)
    (k : Txid) (e : CacheEntry ReimbursementInfo)
    (hnd : (cache.reimbursements.map Prod.fst).Nodup)
    (he : findEntry cache.reimbursements k = some e)
    (hfin : reimbursementFinal e.data.status = false) :
    k ∉ determine_reimbursements_to_purge cache config esplora tip := by
  intro hk
  have base := mem_determineKeysToPurge_iff cache.reimbursements
    (fun r => reimbursementFinal r.status) (fun r => some (reimbursementCheckTxid r))
    esplora tip config.max_tx_confirmations k e hnd he
  have hterm : reimbursementFinal e.data.status = true := (base.mp hk).1
  rw [hfin] at hterm
  cases hterm

theorem findEntry_purge_some {K V : Type} [DecidableEq K] (t : Table K V)
    (keys : List K) (k : K) (e : CacheEntry V)
    (h : findEntry (purgeTable t keys) k = some e) : findEntry t k = some e := by
  rw [findEntry_purgeTable] at h
  by_cases hm : k ∈ keys
  · rw [if_pos hm] at h; cases h
  · rw [if_neg hm] at h; exact h

/-- The claim C6: a cached entry with a non-terminal status whose
per-identity detail fetch fails for this cycle (every operator exhausted,
so the identity is omitted from the cycle's update batch) is still present
after the cycle's batch-apply and purge steps, with its previous data,
confirmation count and timestamp unchanged.  The well-formedness premise
states that a detail response describes the identity it was requested for,
which is how the batch is keyed. -/
theorem c6_failed_refresh_retains_entry :
    (∀ (config : BridgeMonitoringConfig) (env : CycleEnv)
        (context : BridgeMonitoringContext) (tid : Txid) (e : CacheEntry DepositInfo),
      (∀ t i, env.deposit_detail t = some i → i.deposit_request_txid = t) →
      (context.status_cache.deposits.map Prod.fst).Nodup →
      findEntry context.status_cache.deposits tid = some e →
      depositFinal e.data.status = false →
      env.deposit_detail tid = none →
      findEntry (run_cycle config env context).ctx.status_cache.deposits tid = some e) ∧
    (∀ (config : BridgeMonitoringConfig) (env : CycleEnv)
        (context : BridgeMonitoringContext) (rid : Buf32) (e : CacheEntry WithdrawalInfo),
      (∀ t i, env.withdrawal_detail t = some i → i.withdrawal_request_txid = t) →
      (context.status_cache.withdrawals.map Prod.fst).Nodup →
      findEntry context.status_cache.withdrawals rid = some e →
      withdrawalFinal e.data.status = false →
      env.withdrawal_detail rid = none →
      findEntry (run_cycle config env context).ctx.status_cache.withdrawals rid = some e) ∧
    (∀ (config : BridgeMonitoringConfig) (env : CycleEnv)
        (context : BridgeMonitoringContext) (tid : Txid)
        (e : CacheEntry ReimbursementInfo),
      (∀ t i, env.claim_detail t = some i → i.claim_txid = t) →
      (context.status_cache.reimbursements.map Prod.fst).Nodup →
      findEntry context.status_cache.reimbursements tid = some e →
      reimbursementFinal e.data.status = false →
      env.claim_detail tid = none →
      findEntry (run_cycle config env context).ctx.status_cache.reimbursements tid
        = some e) := by
  refine ⟨?_, ?_, ?_⟩
  · intro config env context tid e hwf hnd he hfin hfail
    rcases henv : env.chain_tip with _ | tip
    · rw [run_cycle_none config env context henv]
      exact he
    · simp only [run_cycle, henv, BridgeStatusCache.update_operators,
        BridgeStatusCache.apply_deposit_updates, BridgeStatusCache.purge_deposits,
        BridgeStatusCache.apply_withdrawal_updates, BridgeStatusCache.purge_withdrawals,
        BridgeStatusCache.apply_reimbursement_updates,
        BridgeStatusCache.purge_reimbursements]
      refine (findEntry_purge_not_mem _ _ _ ?_).trans ?_
      · refine not_mem_determine_deposits _ config env.esplora tip tid e ?_ ?_ hfin
        · exact nodup_keys_applyUpdates _ _ _ hnd
        · exact (findEntry_applyUpdates_not_mem _ _ _ _
            (deposits_batch_keys_fetched config env tip _ tid hwf hfail)).trans he
      · exact (findEntry_applyUpdates_not_mem _ _ _ _
          (deposits_batch_keys_fetched config env tip _ tid hwf hfail)).trans he
  · intro config env context rid e hwf hnd he hfin hfail
    rcases henv : env.chain_tip with _ | tip
    · rw [run_cycle_none config env context henv]
      exact he
    · simp only [run_cycle, henv, BridgeStatusCache.update_operators,
        BridgeStatusCache.apply_deposit_updates, BridgeStatusCache.purge_deposits,
        BridgeStatusCache.apply_withdrawal_updates, BridgeStatusCache.purge_withdrawals,
        BridgeStatusCache.apply_reimbursement_updates,
        BridgeStatusCache.purge_reimbursements]
      refine (findEntry_purge_not_mem _ _ _ ?_).trans ?_
      · refine not_mem_determine_withdrawals _ config env.esplora tip rid e ?_ ?_ hfin
        · exact nodup_keys_applyUpdates _ _ _ hnd
        · exact (findEntry_applyUpdates_not_mem _ _ _ _
            (withdrawals_batch_keys_fetched config env tip _ rid hwf hfail)).trans he
      · exact (findEntry_applyUpdates_not_mem _ _ _ _
          (withdrawals_batch_keys_fetched config env tip _ rid hwf hfail)).trans he
  · intro config env context tid e hwf hnd he hfin hfail
    rcases henv : env.chain_tip with _ | tip
    · rw [run_cycle_none config env context henv]
      exact he
    · simp only [run_cycle, henv, BridgeStatusCache.update_operators,
        BridgeStatusCache.apply_deposit_updates, BridgeStatusCache.purge_deposits,
        BridgeStatusCache.apply_withdrawal_updates, BridgeStatusCache.purge_withdrawals,
        BridgeStatusCache.apply_reimbursement_updates,
        BridgeStatusCache.purge_reimbursements]
      refine (findEntry_purge_not_mem _ _ _ ?_).trans ?_
      · refine not_mem_determine_reimbursements _ config env.esplora tip tid e ?_ ?_ hfin
        · exact nodup_keys_applyUpdates _ _ _ hnd
        · exact (findEntry_applyUpdates_not_mem _ _ _ _
            (reimbursements_batch_keys_fetched config env tip _ tid hwf hfail)).trans he
      · exact (findEntry_applyUpdates_not_mem _ _ _ _
          (reimbursements_batch_keys_fetched config env tip _ tid hwf hfail)).trans he

theorem ReimbursementInfo.ofRpc_status_NotStarted (i : RpcClaimInfo) :
    (ReimbursementInfo.ofRpc i).status = ReimbursementStatus.NotStarted ↔
      i.status = RpcReimbursementStatus.NotStarted := by
  rcases i with ⟨c, st⟩
  cases st <;> simp [ReimbursementInfo.ofRpc]

/-- Witness instance of C6: a cached in-progress deposit survives a cycle
in which every detail fetch fails, with its exact previous entry (including
its old timestamp 3, not the cycle's timestamp 17). -/
theorem c6_failed_refresh_retains_entry_witness :
    findEntry (run_cycle ⟨6⟩ sampleEnvOk
        ⟨⟨[(5, ⟨⟨5, none, DepositStatus.InProgress⟩, 0, 3⟩)], [], [], []⟩, true⟩
      ).ctx.status_cache.deposits 5 =
      some ⟨⟨5, none, DepositStatus.InProgress⟩, 0, 3⟩ :=
  c6_failed_refresh_retains_entry.1 ⟨6⟩ sampleEnvOk
    ⟨⟨[(5, ⟨⟨5, none, DepositStatus.InProgress⟩, 0, 3⟩)], [], [], []⟩, true⟩ 5
    ⟨⟨5, none, DepositStatus.InProgress⟩, 0, 3⟩
    (fun t i h => Option.noConfusion h) (by decide) (by decide) (by decide) rfl

/-- The claim C7: a claim whose operator-reported status is `NotStarted` is
excluded from the cycle's reimbursement update batch, so a `NotStarted`
claim never appears in the reimbursement table — as an ingestion property
of `get_reimbursements`, as an invariant preserved by every cycle, and for
every run from a fresh context (even when an operator lists the claim id
among its claims). -/
theorem c7_not_started_never_cached :
    (∀ (config : BridgeMonitoringConfig) (env : CycleEnv) (tip : Nat)
        (active : List Txid),
      ∀ p ∈ get_reimbursements config env tip active,
        p.1.status ≠ ReimbursementStatus.NotStarted) ∧
    (∀ (config : BridgeMonitoringConfig) (env : CycleEnv)
        (context : BridgeMonitoringContext),
      (∀ (k : Txid) (e : CacheEntry ReimbursementInfo),
        findEntry context.status_cache.reimbursements k = some e →
        e.data.status ≠ ReimbursementStatus.NotStarted) →
      ∀ (k : Txid) (e : CacheEntry ReimbursementInfo),
        findEntry (run_cycle config env context).ctx.status_cache.reimbursements k
          = some e →
        e.data.status ≠ ReimbursementStatus.NotStarted) ∧
    (∀ (config : BridgeMonitoringConfig) (envs : List CycleEnv) (k : Txid)
        (e : CacheEntry ReimbursementInfo),
      findEntry
          (run_cycles config envs BridgeMonitoringContext.new).status_cache.reimbursements
          k = some e →
      e.data.status ≠ ReimbursementStatus.NotStarted) := by
  have hpart1 : ∀ (config : BridgeMonitoringConfig) (env : CycleEnv) (tip : Nat)
      (active : List Txid),
      ∀ p ∈ get_reimbursements config env tip active,
        p.1.status ≠ ReimbursementStatus.NotStarted := by
    intro config env tip active p hp hcontra
    obtain ⟨t, info, _hdet, hp1, hstat⟩ :=
      get_reimbursements_shape config env tip active p hp
    rw [hp1] at hcontra
    exact hstat ((ReimbursementInfo.ofRpc_status_NotStarted info).mp hcontra)
  have hpart2 : ∀ (config : BridgeMonitoringConfig) (env : CycleEnv)
      (context : BridgeMonitoringContext),
      (∀ (k : Txid) (e : CacheEntry ReimbursementInfo),
        findEntry context.status_cache.reimbursements k = some e →
        e.data.status ≠ ReimbursementStatus.NotStarted) →
      ∀ (k : Txid) (e : CacheEntry ReimbursementInfo),
        findEntry (run_cycle config env context).ctx.status_cache.reimbursements k
          = some e →
        e.data.status ≠ ReimbursementStatus.NotStarted := by
    intro config env context hinv k e hres
    rcases henv : env.chain_tip with _ | tip
    · rw [run_cycle_none config env context henv] at hres
      exact hinv k e hres
    · simp only [run_cycle, henv, BridgeStatusCache.update_operators,
        BridgeStatusCache.apply_deposit_updates, BridgeStatusCache.purge_deposits,
        BridgeStatusCache.apply_withdrawal_updates, BridgeStatusCache.purge_withdrawals,
        BridgeStatusCache.apply_reimbursement_updates,
        BridgeStatusCache.purge_reimbursements] at hres
      have h1 := findEntry_purge_some _ _ _ _ hres
      rcases findEntry_applyUpdates_cases _ _ _ _ _ h1 with hold | ⟨u, hu, _hk, hdata⟩
      · exact hinv k e hold
      · obtain ⟨p, hp, hup⟩ := List.mem_map.mp hu
        intro hcontra
        have hdp : e.data = p.1 := by rw [← hup] at hdata; exact hdata
        rw [hdp] at hcontra
        exact hpart1 config env tip _ p hp hcontra
  refine ⟨hpart1, hpart2, ?_⟩
  intro config envs
  have hgen : ∀ (context : BridgeMonitoringContext),
      (∀ (k : Txid) (e : CacheEntry ReimbursementInfo),
        findEntry context.status_cache.reimbursements k = some e →
        e.data.status ≠ ReimbursementStatus.NotStarted) →
      ∀ (k : Txid) (e : CacheEntry ReimbursementInfo),
        findEntry (run_cycles config envs context).status_cache.reimbursements k
          = some e →
        e.data.status ≠ ReimbursementStatus.NotStarted := by
    induction envs with
    | nil => intro context hinv k e hres; exact hinv k e hres
    | cons env rest ih =>
      intro context hinv k e hres
      exact ih (run_cycle config env context).ctx (hpart2 config env context hinv) k e hres
  intro k e hres
  refine hgen BridgeMonitoringContext.new ?_ k e hres
  intro k' e' h
  simp [BridgeMonitoringContext.new, BridgeStatusCache.new, findEntry] at h

/-- A cycle environment in which the operator lists claim 7 (reported
`NotStarted`) and claim 9 (reported `InProgress`). -/
def sampleEnvClaims : CycleEnv :=
  { sampleEnvOk with
    new_claim_txids := [7]
    claim_detail := fun t =>
      if t = 7 then some ⟨7, RpcReimbursementStatus.NotStarted⟩
      else if t = 9 then some ⟨9, RpcReimbursementStatus.InProgress⟩
      else none }

/-- Witness instance of C7: after a cycle in which the operator lists the
`NotStarted` claim 7, the cache still has no entry for it, while the
refreshed in-progress claim 9 (whose entry the invariant theorem covers) is
not `NotStarted`. -/
theorem c7_not_started_never_cached_witness :
    (⟨⟨9, ChallengeStep.Claim, none, ReimbursementStatus.InProgress⟩, 0, 17⟩ :
        CacheEntry ReimbursementInfo).data.status ≠ ReimbursementStatus.NotStarted ∧
    findEntry (run_cycle ⟨6⟩ sampleEnvClaims
        ⟨⟨[], [],
          [(9, ⟨⟨9, ChallengeStep.Claim, none, ReimbursementStatus.InProgress⟩, 0, 3⟩)],
          []⟩, true⟩).ctx.status_cache.reimbursements 7 = none := by
  constructor
  · refine c7_not_started_never_cached.2.1 ⟨6⟩ sampleEnvClaims
      ⟨⟨[], [],
        [(9, ⟨⟨9, ChallengeStep.Claim, none, ReimbursementStatus.InProgress⟩, 0, 3⟩)],
        []⟩, true⟩ ?_ 9
      ⟨⟨9, ChallengeStep.Claim, none, ReimbursementStatus.InProgress⟩, 0, 17⟩
      (by decide)
    intro k' e' h
    have hm := mem_of_findEntry_eq_some _ _ _ h
    simp only [List.mem_singleton] at hm
    rw [show e' = ⟨⟨9, ChallengeStep.Claim, none, ReimbursementStatus.InProgress⟩, 0, 3⟩
      from congrArg Prod.snd hm]
    decide
  · decide
